import Mathlib

set_option maxRecDepth 100000

/-!
# Verification of the tap-netsuite-general-ledger extraction engine

Shallow embedding of the tap's core logic:

* `sync.py` — value conversion (`convert_to_integer`, `convert_to_number`,
  `format_date`, `format_datetime`), record transformation
  (`transform_record`), the per-batch record processor, and the
  bookkeeping of sync state.
* `client.py` — OAuth 1.0a signing (`generate_oauth_header`), the
  account-chunked fetch pipeline (`_make_api_request`,
  `_fetch_chunk_data`, `_fetch_with_account_chunks`,
  `_fetch_single_request`, `fetch_gl_data_streaming`) and the
  streaming batch dispatcher (`_process_records_in_streaming_batches`).
* `streams/gl_detail.py` — the query-builder semantics used by the
  identifier-chunked pagination controller (the controller itself,
  `fetch_gl_data_pages`, is not present in the sources and is modelled
  from the design document where a claim depends on it).

Python values are modelled by `PyVal` (None, str, int, float-as-rational,
bool); strings are treated as ASCII byte strings.  Fallible paths are
modelled with `Except`/`Option`; the network is an explicit transport
function passed as a parameter.
-/

namespace NetSuiteTap

/-- A Python float: a finite value (kept as an exact rational — no checked
claim depends on the low-order bits the IEEE rounding would change), a
signed infinity, or NaN. Infinities and NaN are modelled explicitly because
they drive control flow: `int()` raises `OverflowError` on an infinity and
`ValueError` on NaN. -/
inductive PyFloatVal where
  | finite (q : Rat)
  | infinite (neg : Bool)
  | nan
deriving DecidableEq, Repr

/-- A Python runtime value as it occurs in the tap's record dictionaries:
`None`, `str`, `int`, `float`, or `bool`. -/
inductive PyVal where
  | none
  | str (s : String)
  | int (n : Int)
  | float (v : PyFloatVal)
  | bool (b : Bool)
deriving DecidableEq, Repr

/-- A Python dict of record fields, as an association list. -/
abbrev Rec := List (String × PyVal)

/-- `d.get(k)` on a dict: first binding of the key, if any. -/
def lookupVal (r : Rec) (k : String) : Option PyVal :=
  (r.find? (fun p => p.1 = k)).map (fun p => p.2)

/-- `d.get(k) is None`: the key is absent or bound to `None`. -/
def isNoneVal : Option PyVal → Bool
  | Option.none => true
  | Option.some PyVal.none => true
  | _ => false

/-- The ASCII whitespace characters removed by Python `str.strip()`. -/
def pyIsSpace (c : Char) : Bool :=
  c = ' ' ∨ c = '\t' ∨ c = '\n' ∨ c = '\r' ∨ c = Char.ofNat 11 ∨ c = Char.ofNat 12

/-- Python `str.strip()`: drop leading and trailing whitespace. -/
def pyStrip (s : String) : String :=
  String.mk (((s.data.dropWhile pyIsSpace).reverse.dropWhile pyIsSpace).reverse)

/-- ASCII lower-casing, as `str.lower()` does for ASCII input. -/
def pyLower (s : String) : String :=
  String.mk (s.data.map Char.toLower)

/-- `c in s` for a single character. -/
def pyContainsChar (s : String) (c : Char) : Bool :=
  s.data.contains c

def isDigitChar (c : Char) : Bool :=
  '0' ≤ c ∧ c ≤ '9'

/-- Numeric value of a string of decimal digit characters. -/
def digitsToNat (cs : List Char) : Nat :=
  cs.foldl (fun acc c => acc * 10 + (c.toNat - '0'.toNat)) 0

/-- A valid CPython digit group: nonempty, made of digits and single
underscores, with an underscore only between two digits
(`int("1_000")` parses, `int("_1")`, `int("1_")`, `int("1__2")` do not). -/
def validDigitGroup : List Char → Bool
  | [] => false
  | c :: cs =>
    isDigitChar c ∧ goGroup cs
where
  goGroup : List Char → Bool
    | [] => true
    | '_' :: c :: cs => isDigitChar c ∧ goGroup cs
    | '_' :: [] => false
    | c :: cs => isDigitChar c ∧ goGroup cs

/-- Digits of a digit group with the underscores removed. -/
def groupDigits (cs : List Char) : List Char :=
  cs.filter isDigitChar

/-- CPython `int(s)` on a whitespace-free string: optional sign followed by
a decimal digit group. Returns `none` where `int()` raises `ValueError`. -/
def pyParseInt (s : String) : Option Int :=
  match s.data with
  | '+' :: rest =>
    if validDigitGroup rest then Option.some (Int.ofNat (digitsToNat (groupDigits rest)))
    else Option.none
  | '-' :: rest =>
    if validDigitGroup rest then Option.some (-(Int.ofNat (digitsToNat (groupDigits rest))))
    else Option.none
  | rest =>
    if validDigitGroup rest then Option.some (Int.ofNat (digitsToNat (groupDigits rest)))
    else Option.none

/-- Split a character list at the first occurrence of `'e'`/`'E'`. -/
def splitAtExp : List Char → (List Char × Option (List Char))
  | [] => ([], Option.none)
  | c :: cs =>
    if c = 'e' ∨ c = 'E' then ([], Option.some cs)
    else
      let r := splitAtExp cs
      (c :: r.1, r.2)

/-- Split a character list at the first `'.'`. -/
def splitAtDot : List Char → (List Char × Option (List Char))
  | [] => ([], Option.none)
  | c :: cs =>
    if c = '.' then ([], Option.some cs)
    else
      let r := splitAtDot cs
      (c :: r.1, r.2)

/-- Mantissa of a float literal: `digits`, `digits.`, `.digits` or
`digits.digits`. Returns the integer value of all digits together with the
number of fractional digits. -/
def parseMantissa (cs : List Char) : Option (Nat × Nat) :=
  match splitAtDot cs with
  | (intPart, Option.none) =>
    if validDigitGroup intPart then Option.some (digitsToNat (groupDigits intPart), 0)
    else Option.none
  | (intPart, Option.some fracPart) =>
    if intPart = [] ∧ fracPart = [] then Option.none
    else if (intPart = [] ∨ validDigitGroup intPart) ∧
            (fracPart = [] ∨ validDigitGroup fracPart) then
      let fd := groupDigits fracPart
      Option.some (digitsToNat (groupDigits intPart ++ fd), fd.length)
    else Option.none

/-- Exponent of a float literal: optional sign and a digit group. -/
def parseExponent (cs : List Char) : Option Int :=
  match cs with
  | '+' :: rest =>
    if validDigitGroup rest then Option.some (Int.ofNat (digitsToNat (groupDigits rest)))
    else Option.none
  | '-' :: rest =>
    if validDigitGroup rest then Option.some (-(Int.ofNat (digitsToNat (groupDigits rest))))
    else Option.none
  | rest =>
    if validDigitGroup rest then Option.some (Int.ofNat (digitsToNat (groupDigits rest)))
    else Option.none

/-- The smallest positive magnitude at which CPython `float()` overflows:
decimal values of magnitude at least `2^1024 - 2^970` round to infinity
under round-to-nearest-even (verified against CPython: the threshold value
itself parses to `inf`, the largest double below it stays finite). -/
def doubleOverflowBound : Rat := (2 : Rat) ^ (1024 : Nat) - (2 : Rat) ^ (970 : Nat)

/-- CPython `float(s)` on a whitespace-free string: an optional sign
followed by an `inf`/`infinity`/`nan` spelling (case-insensitive) or a
decimal literal. The classification is faithful — the spellings give the
special values, and literals at or beyond the double overflow threshold
give infinity, exactly the inputs on which `int(float(s))` raises
`OverflowError` — while finite literal values are kept as exact rationals
rather than rounded to the nearest double (no checked claim depends on the
low-order bits). Returns `none` where `float()` raises `ValueError`. -/
def pyFloat (s : String) : Option PyFloatVal :=
  let signed : Bool × List Char :=
    match s.data with
    | '+' :: rest => (false, rest)
    | '-' :: rest => (true, rest)
    | rest => (false, rest)
  let neg := signed.1
  let body := signed.2
  let lower := body.map Char.toLower
  if lower = "inf".data ∨ lower = "infinity".data then
    Option.some (PyFloatVal.infinite neg)
  else if lower = "nan".data then Option.some PyFloatVal.nan
  else
    let me := splitAtExp body
    match parseMantissa me.1 with
    | Option.none => Option.none
    | Option.some mf =>
      let expVal : Option Int :=
        match me.2 with
        | Option.none => Option.some 0
        | Option.some e => parseExponent e
      match expVal with
      | Option.none => Option.none
      | Option.some e =>
        let q : Rat := (mf.1 : Rat) * (10 : Rat) ^ (e - (mf.2 : Int))
        if doubleOverflowBound ≤ q then Option.some (PyFloatVal.infinite neg)
        else Option.some (PyFloatVal.finite (if neg then -q else q))

/-- Python `int(f)` on a float: truncation toward zero. -/
def pyTrunc (q : Rat) : Int :=
  Int.tdiv q.num (q.den : Int)

/-- `s.replace(c, '')`: remove every occurrence of a single character
(modelled as a filter over the characters; `String.replace` itself does not
reduce in the kernel). -/
def removeChar (c : Char) (s : String) : String :=
  String.mk (s.data.filter (fun a => a ≠ c))

/-- Embeds `sync.convert_to_number`: `None`/`''` become `None`; numbers
(including infinities: `float('1e400')` is `inf`, not an error) pass
through; strings are cleaned of `','`/`'$'` and stripped, parsed as float
when a `'.'` or `'e'` is present and as int otherwise, and returned
unchanged (as the original string) when parsing fails. Every exception
`float()`/`int()` can raise here is caught, so the function is total. -/
def convert_to_number : PyVal → PyVal
  | PyVal.none => PyVal.none
  | PyVal.bool b => PyVal.bool b
  | PyVal.int n => PyVal.int n
  | PyVal.float v => PyVal.float v
  | PyVal.str s =>
    if s = "" then PyVal.none
    else
      let cleaned := pyStrip (removeChar '$' (removeChar ',' s))
      if cleaned = "" then PyVal.none
      else if pyContainsChar cleaned '.' ∨ pyContainsChar (pyLower cleaned) 'e' then
        match pyFloat cleaned with
        | Option.some v => PyVal.float v
        | Option.none => PyVal.str s
      else
        match pyParseInt cleaned with
        | Option.some n => PyVal.int n
        | Option.none => PyVal.str s

/-- Embeds `sync.convert_to_integer`, including its exception behavior
(`Except.error` names the exception class that propagates): `None`/`''`
become `None`; ints pass through; a float input goes through a bare
`int(value)`, which raises `OverflowError` on an infinity and `ValueError`
on NaN — uncaught, since that branch has no `try`. A string is stripped and
parsed as int; failing that, `int(float(cleaned))` is tried, whose
`except (ValueError, TypeError, AttributeError)` clause does *not* cover
`OverflowError`: a float-infinite string (an `inf` spelling or an
overflowing literal such as `'1e400'`) therefore raises out of the
function, while a NaN string or an unparseable string yields the original
value as a string. -/
def convert_to_integer : PyVal → Except String PyVal
  | PyVal.none => Except.ok PyVal.none
  | PyVal.bool b => Except.ok (PyVal.bool b)
  | PyVal.int n => Except.ok (PyVal.int n)
  | PyVal.float (PyFloatVal.finite q) => Except.ok (PyVal.int (pyTrunc q))
  | PyVal.float (PyFloatVal.infinite _) => Except.error "OverflowError"
  | PyVal.float PyFloatVal.nan => Except.error "ValueError"
  | PyVal.str s =>
    if s = "" then Except.ok PyVal.none
    else
      let cleaned := pyStrip s
      if cleaned = "" then Except.ok PyVal.none
      else
        match pyParseInt cleaned with
        | Option.some n => Except.ok (PyVal.int n)
        | Option.none =>
          match pyFloat cleaned with
          | Option.some (PyFloatVal.finite q) => Except.ok (PyVal.int (pyTrunc q))
          | Option.some (PyFloatVal.infinite _) => Except.error "OverflowError"
          | Option.some PyFloatVal.nan => Except.ok (PyVal.str s)
          | Option.none => Except.ok (PyVal.str s)

/-- Decimal digit string of `n`, zero-padded to width 2. -/
def pad2 (n : Nat) : String :=
  if n < 10 then "0" ++ toString n else toString n

/-- Decimal digit string of `n`, zero-padded to width 4. -/
def pad4 (n : Nat) : String :=
  if n < 10 then "000" ++ toString n
  else if n < 100 then "00" ++ toString n
  else if n < 1000 then "0" ++ toString n
  else toString n

/-- Rendering of a float value as Python `str` shows it: exact for the
special values and integral floats, best-effort for other finite values —
no checked claim depends on finite float `repr`. -/
def pyFloatRepr : PyFloatVal → String
  | PyFloatVal.finite q =>
    if q.den = 1 then toString q.num ++ ".0"
    else toString q.num ++ "/" ++ toString q.den
  | PyFloatVal.infinite b => if b then "-inf" else "inf"
  | PyFloatVal.nan => "nan"

/-- Python `str(v)` for the values occurring in records. -/
def pyStr : PyVal → String
  | PyVal.none => "None"
  | PyVal.str s => s
  | PyVal.int n => toString n
  | PyVal.float v => pyFloatRepr v
  | PyVal.bool b => if b then "True" else "False"

/-- `%Y`: exactly four decimal digits. -/
def parseFixed4 (s : String) : Option Nat :=
  if s.data.length = 4 ∧ s.data.all isDigitChar then Option.some (digitsToNat s.data)
  else Option.none

/-- `%y`: exactly two decimal digits, mapped to 2000–2068 / 1969–1999. -/
def parseYear2 (s : String) : Option Nat :=
  if s.data.length = 2 ∧ s.data.all isDigitChar then
    let n := digitsToNat s.data
    Option.some (if n ≤ 68 then 2000 + n else 1900 + n)
  else Option.none

/-- A one-or-two–digit field constrained to `[lo, hi]` (`%m`, `%d`, `%H`,
`%M`, `%S`, `%I` in CPython `_strptime`). -/
def parse12 (lo hi : Nat) (s : String) : Option Nat :=
  let cs := s.data
  if (cs.length = 1 ∨ cs.length = 2) ∧ cs.all isDigitChar then
    let v := digitsToNat cs
    if lo ≤ v ∧ v ≤ hi then Option.some v else Option.none
  else Option.none

def isLeapYear (y : Nat) : Bool :=
  y % 4 = 0 ∧ (y % 100 ≠ 0 ∨ y % 400 = 0)

def daysInMonth (y m : Nat) : Nat :=
  if m = 2 then (if isLeapYear y then 29 else 28)
  else if m = 4 ∨ m = 6 ∨ m = 9 ∨ m = 11 then 30
  else 31

/-- `datetime(y, m, d)` constructs without raising. -/
def validDate (y m d : Nat) : Bool :=
  1 ≤ y ∧ y ≤ 9999 ∧ 1 ≤ m ∧ m ≤ 12 ∧ 1 ≤ d ∧ d ≤ daysInMonth y m

/-- `strptime(s, "%Y-%m-%d")` (also covers `"%m-%d-%Y"` etc. through the
argument order): three separator-joined digit fields plus calendar check. -/
def tryDate3 (sep : String) (pa pb pc : String → Option Nat)
    (mk : Nat → Nat → Nat → Nat × Nat × Nat) (s : String) :
    Option (Nat × Nat × Nat) :=
  match s.splitOn sep with
  | [a, b, c] =>
    match pa a, pb b, pc c with
    | Option.some va, Option.some vb, Option.some vc =>
      let ymd := mk va vb vc
      if validDate ymd.1 ymd.2.1 ymd.2.2 then Option.some ymd else Option.none
    | _, _, _ => Option.none
  | _ => Option.none

/-- The `format_date` fallback chain of `sync.py`: `%Y-%m-%d`, `%m/%d/%Y`,
`%m/%d/%y`, `%m-%d-%Y`, `%d/%m/%Y`, first match wins. -/
def pyStrptimeDate (s : String) : Option (Nat × Nat × Nat) :=
  (tryDate3 "-" parseFixed4 (parse12 1 12) (parse12 1 31)
    (fun y m d => (y, m, d)) s).orElse (fun _ =>
  (tryDate3 "/" (parse12 1 12) (parse12 1 31) parseFixed4
    (fun m d y => (y, m, d)) s).orElse (fun _ =>
  (tryDate3 "/" (parse12 1 12) (parse12 1 31) parseYear2
    (fun m d y => (y, m, d)) s).orElse (fun _ =>
  (tryDate3 "-" (parse12 1 12) (parse12 1 31) parseFixed4
    (fun m d y => (y, m, d)) s).orElse (fun _ =>
  (tryDate3 "/" (parse12 1 31) (parse12 1 12) parseFixed4
    (fun d m y => (y, m, d)) s)))))

/-- Embeds `sync.format_date`: `None`/`''` become `None`; a string that looks
ISO (length ≥ 10 with dashes at positions 4 and 7) is cut to its first 10
characters; otherwise the strptime chain is tried and, failing that, the
original value is returned as a string. -/
def format_date : PyVal → PyVal
  | PyVal.none => PyVal.none
  | PyVal.str s =>
    if s = "" then PyVal.none
    else if 10 ≤ s.data.length ∧ s.data.getD 4 ' ' = '-' ∧ s.data.getD 7 ' ' = '-' then
      PyVal.str (String.mk (s.data.take 10))
    else
      match pyStrptimeDate s with
      | Option.some ymd => PyVal.str (pad4 ymd.1 ++ "-" ++ pad2 ymd.2.1 ++ "-" ++ pad2 ymd.2.2)
      | Option.none => PyVal.str s
  | v => PyVal.str (pyStr v)

/-- `%H:%M:%S` (second 60/61 would pass the regex but fail the `datetime`
constructor, so the net acceptance is 0–59). -/
def parseTimeHMS (s : String) : Option (Nat × Nat × Nat) :=
  match s.splitOn ":" with
  | [h, m, sec] =>
    match parse12 0 23 h, parse12 0 59 m, parse12 0 59 sec with
    | Option.some vh, Option.some vm, Option.some vs => Option.some (vh, vm, vs)
    | _, _, _ => Option.none
  | _ => Option.none

/-- `%I:%M`: 12-hour clock, no seconds. -/
def parseTimeIM (s : String) : Option (Nat × Nat) :=
  match s.splitOn ":" with
  | [h, m] =>
    match parse12 1 12 h, parse12 0 59 m with
    | Option.some vh, Option.some vm => Option.some (vh, vm)
    | _, _ => Option.none
  | _ => Option.none

/-- 12-hour to 24-hour conversion as `_strptime` performs it. -/
def hour12To24 (h : Nat) (pm : Bool) : Nat :=
  if pm then (if h = 12 then 12 else h + 12)
  else (if h = 12 then 0 else h)

/-- The `format_datetime` fallback chain of `sync.py`: `%Y-%m-%d %H:%M:%S`,
`%m/%d/%Y %I:%M %p`, `%m/%d/%Y %H:%M:%S` (the fourth format,
`%Y-%m-%dT%H:%M:%S`, is unreachable behind the `'T'` fast path but kept for
completeness). -/
def pyStrptimeDatetime (s : String) : Option (Nat × Nat × Nat × Nat × Nat × Nat) :=
  let dashDate := tryDate3 "-" parseFixed4 (parse12 1 12) (parse12 1 31)
    (fun y m d => (y, m, d))
  let slashDate := tryDate3 "/" (parse12 1 12) (parse12 1 31) parseFixed4
    (fun m d y => (y, m, d))
  let g1 : Option (Nat × Nat × Nat × Nat × Nat × Nat) :=
    match s.splitOn " " with
    | [ds, ts] =>
      match dashDate ds, parseTimeHMS ts with
      | Option.some ymd, Option.some hms =>
        Option.some (ymd.1, ymd.2.1, ymd.2.2, hms.1, hms.2.1, hms.2.2)
      | _, _ => Option.none
    | _ => Option.none
  let g2 : Option (Nat × Nat × Nat × Nat × Nat × Nat) :=
    match s.splitOn " " with
    | [ds, ts, ap] =>
      let pm := if pyLower ap = "pm" then Option.some true
                else if pyLower ap = "am" then Option.some false
                else Option.none
      match slashDate ds, parseTimeIM ts, pm with
      | Option.some ymd, Option.some im, Option.some isPm =>
        Option.some (ymd.1, ymd.2.1, ymd.2.2, hour12To24 im.1 isPm, im.2, 0)
      | _, _, _ => Option.none
    | _ => Option.none
  let g3 : Option (Nat × Nat × Nat × Nat × Nat × Nat) :=
    match s.splitOn " " with
    | [ds, ts] =>
      match slashDate ds, parseTimeHMS ts with
      | Option.some ymd, Option.some hms =>
        Option.some (ymd.1, ymd.2.1, ymd.2.2, hms.1, hms.2.1, hms.2.2)
      | _, _ => Option.none
    | _ => Option.none
  let g4 : Option (Nat × Nat × Nat × Nat × Nat × Nat) :=
    match s.splitOn "T" with
    | [ds, ts] =>
      match dashDate ds, parseTimeHMS ts with
      | Option.some ymd, Option.some hms =>
        Option.some (ymd.1, ymd.2.1, ymd.2.2, hms.1, hms.2.1, hms.2.2)
      | _, _ => Option.none
    | _ => Option.none
  (g1.orElse (fun _ => g2)).orElse (fun _ => (g3.orElse (fun _ => g4)))

/-- Embeds `sync.format_datetime`: `None`/`''` become `None`; a string
containing `'T'` is returned as-is with a `'Z'` appended if missing;
otherwise the strptime chain is tried (result rendered as
`isoformat() + 'Z'`), falling back to the original value as a string. -/
def format_datetime : PyVal → PyVal
  | PyVal.none => PyVal.none
  | PyVal.str s =>
    if s = "" then PyVal.none
    else if pyContainsChar s 'T' then
      if s.endsWith "Z" then PyVal.str s else PyVal.str (s ++ "Z")
    else
      match pyStrptimeDatetime s with
      | Option.some v =>
        PyVal.str (pad4 v.1 ++ "-" ++ pad2 v.2.1 ++ "-" ++ pad2 v.2.2.1 ++ "T" ++
          pad2 v.2.2.2.1 ++ ":" ++ pad2 v.2.2.2.2.1 ++ ":" ++ pad2 v.2.2.2.2.2 ++ "Z")
      | Option.none => PyVal.str s
  | v => PyVal.str (pyStr v)

/-- The `integer_fields` set of `sync.transform_record`. -/
def integer_fields : List String :=
  ["internal_id", "posting_period_id", "trans_acct_line_id",
   "acct_id", "account_group", "department", "class", "location"]

/-- The `number_fields` set of `sync.transform_record`. -/
def number_fields : List String := ["debit", "credit", "net_amount"]

/-- The `date_fields` set of `sync.transform_record`. -/
def date_fields : List String :=
  ["transaction_date", "account_last_modified",
   "trans_acct_line_last_modified", "transaction_last_modified"]

/-- The `datetime_fields` set of `sync.transform_record`. -/
def datetime_fields : List String := ["created_date"]

/-- One iteration of the field loop in `sync.transform_record`; an
`OverflowError`/`ValueError` escaping `convert_to_integer` propagates
(`transform_record` has no `try` of its own). -/
def transformFieldValueE (f : String) (v : PyVal) : Except String PyVal :=
  if v = PyVal.none ∨ v = PyVal.str "" then Except.ok PyVal.none
  else if integer_fields.contains f then convert_to_integer v
  else if number_fields.contains f then Except.ok (convert_to_number v)
  else if date_fields.contains f then Except.ok (format_date v)
  else if datetime_fields.contains f then Except.ok (format_datetime v)
  else Except.ok (PyVal.str (pyStr v))

/-- The field-conversion loop of `sync.transform_record` (everything before
the required-identifier validation); the first raising field aborts the
loop, as in Python. -/
def transformFieldsE : Rec → Except String Rec
  | [] => Except.ok []
  | p :: rest =>
    match transformFieldValueE p.1 p.2 with
    | Except.error e => Except.error e
    | Except.ok w =>
      match transformFieldsE rest with
      | Except.error e => Except.error e
      | Except.ok t => Except.ok ((p.1, w) :: t)

/-- Embeds `sync.transform_record` directly: a conversion exception
propagates to the caller (`Except.error`); otherwise the record is dropped
(`Except.ok none`) when the transformed `trans_acct_line_id` or
`internal_id` is `None`/absent, and returned transformed otherwise. -/
def transform_recordE (r : Rec) : Except String (Option Rec) :=
  match transformFieldsE r with
  | Except.error e => Except.error e
  | Except.ok t =>
    if isNoneVal (lookupVal t "trans_acct_line_id") then Except.ok Option.none
    else if isNoneVal (lookupVal t "internal_id") then Except.ok Option.none
    else Except.ok (Option.some t)

/-- The transformed field dict when the conversion loop completes without an
exception (empty on the exception path, where the caller drops the record
regardless). -/
def transformFields (r : Rec) : Rec :=
  (transformFieldsE r).toOption.getD []

/-- `transform_record` as its only caller observes it: `process_batch` wraps
each record in `try ... except Exception: continue`, so an exception
propagating out of the transformation drops the record exactly like a
validation failure does. -/
def transform_record (r : Rec) : Option Rec :=
  match transform_recordE r with
  | Except.ok o => o
  | Except.error _ => Option.none

/-- Embeds the record loop of `sync.process_batch` on the success path of
`singer.write_record`: transform each record, skip (`continue`) those whose
transformation returns `None`, and emit the rest in order. -/
def process_batch : List Rec → List Rec
  | [] => []
  | r :: rest =>
    match transform_record r with
    | Option.none => process_batch rest
    | Option.some t => t :: process_batch rest

/-- The batch-index loop of `client._process_records_in_streaming_batches`:
`m` iterations remain, the current offset is `i`, `cur` is the live
`records` list.  Each iteration slices `records[i:min(i+bs, n)]` (with `n`
the *original* length, fixed before the loop), dispatches it, then pops the
positions `i ≤ j < min(i+bs, n)` from the live list — mirroring the
`records.pop(j)` loop that runs while the indices still refer to the
original list. -/
def streamBatchesGo (bs n : Nat) : Nat → Nat → List α → List (List α)
  | 0, _, _ => []
  | Nat.succ m, i, cur =>
    let be := min (i + bs) n
    ((cur.drop i).take (be - i)) ::
      streamBatchesGo bs n m (i + bs) (cur.take i ++ cur.drop be)

/-- Embeds `client._process_records_in_streaming_batches`: returns the list
of batches handed to the consumer callback, in call order, together with the
final `processed_count` (the sum of the dispatched batch sizes). -/
def process_records_in_streaming_batches (records : List α) (bs : Nat) :
    List (List α) × Nat :=
  let n := records.length
  let total_batches := (n + bs - 1) / bs
  let batches := streamBatchesGo bs n total_batches 0 records
  (batches, (batches.map List.length).sum)

/-- The parsed JSON body of a RESTlet response, restricted to the keys the
client reads: `success`, `results` (`none` when the key is absent),
`error`, `hasMoreResults`, `nextStartIndex`. -/
structure ApiBody (α : Type) where
  success : Bool
  results : Option (List α)
  error : Option String
  hasMoreResults : Bool
  nextStartIndex : Option Nat
deriving DecidableEq, Repr

/-- What one HTTP round trip produced: a status/body/text triple, a timeout,
or a transport failure (connection reset and the like). -/
inductive TransportOutcome (α : Type) where
  | http (status : Nat) (body : ApiBody α) (text : String)
  | timeout
  | netFailure (msg : String)
deriving DecidableEq, Repr

/-- The variable part of a data request payload: the optional period filter,
the optional `accountIds` list and the optional `startIndex`
(`_fetch_single_request` sends neither accounts nor start index). -/
structure DataRequest where
  period : Option String
  accountIds : Option (List String)
  startIndex : Option Nat
deriving DecidableEq, Repr

/-- An account row returned by the `getAccounts` action; only its `id` key
is read. -/
structure Account where
  id : Option String
deriving DecidableEq, Repr

/-- The remote API as the run observes it: one outcome for the
`getAccounts` action and one outcome per data request. -/
structure NetSuiteApi (α : Type) where
  accountsOutcome : TransportOutcome Account
  dataOutcome : DataRequest → TransportOutcome α

/-- Embeds `client._make_api_request`: a 200 response yields its parsed
body; any other status, a timeout, or a transport failure yields a
`success: False` dict with an error message — the function never raises. -/
def make_api_request : TransportOutcome α → ApiBody α
  | TransportOutcome.http s body text =>
    if s = 200 then body
    else ⟨false, Option.none, Option.some ("HTTP " ++ toString s ++ ": " ++ text),
      false, Option.none⟩
  | TransportOutcome.timeout =>
    ⟨false, Option.none, Option.some "Request timed out", false, Option.none⟩
  | TransportOutcome.netFailure m =>
    ⟨false, Option.none, Option.some m, false, Option.none⟩

/-- Python truthiness of the optional `nextStartIndex` (0 is falsy). -/
def truthyNat : Option Nat → Bool
  | Option.some k => k ≠ 0
  | Option.none => false

/-- Embeds `client._get_accounts`: `some accounts` on a successful response
carrying a `results` key, `none` otherwise (the caller then falls back to a
single request). -/
def get_accounts (api : NetSuiteApi α) : Option (List Account) :=
  let result := make_api_request api.accountsOutcome
  if result.success ∧ result.results.isSome then result.results else Option.none

/-- The pagination loop of `client._fetch_chunk_data`, instrumented with the
list of requests it issues.  A successful page extends the accumulator and
continues only when `hasMoreResults` and a truthy `nextStartIndex` are
present; any unsuccessful result breaks the loop, keeping the records
fetched so far — no exception escapes. -/
def fetchChunkPagesGo (t : DataRequest → TransportOutcome α)
    (period : Option String) (ids : List String) :
    Nat → Nat → List α × List DataRequest
  | 0, _ => ([], [])
  | Nat.succ fuel, start =>
    let req : DataRequest := ⟨period, Option.some ids, Option.some start⟩
    let result := make_api_request (t req)
    if result.success ∧ result.results.isSome then
      let page := result.results.getD []
      if result.hasMoreResults ∧ truthyNat result.nextStartIndex then
        let rest := fetchChunkPagesGo t period ids fuel (result.nextStartIndex.getD 0)
        (page ++ rest.1, req :: rest.2)
      else (page, [req])
    else ([], [req])

/-- Embeds `client._fetch_chunk_data` (records returned for one account
chunk, plus the issued requests). -/
def fetch_chunk_data (t : DataRequest → TransportOutcome α)
    (period : Option String) (ids : List String) (fuel : Nat) :
    List α × List DataRequest :=
  fetchChunkPagesGo t period ids fuel 0

/-- `accounts[i:i+cs]` slices of the account list. -/
def sliceChunks (cs : Nat) : Nat → List β → List (List β)
  | 0, _ => []
  | Nat.succ m, l =>
    if l.isEmpty then [] else l.take cs :: sliceChunks cs m (l.drop cs)

/-- The chunk-building loop of `client._fetch_with_account_chunks`: slice the
accounts, keep the truthy ids of each slice, and drop slices with no valid
id. -/
def build_account_chunks (accounts : List Account) (cs : Nat) : List (List String) :=
  (sliceChunks cs accounts.length accounts).filterMap (fun chunk =>
    let ids := chunk.filterMap (fun a =>
      match a.id with
      | Option.some s => if s = "" then Option.none else Option.some s
      | Option.none => Option.none)
    if ids.isEmpty then Option.none else Option.some ids)

/-- The chunk loop of `client._fetch_with_account_chunks`: fetch each chunk,
stream its records to the consumer in batches when nonempty, and continue
with the remaining chunks whatever happened — the `except` clause around the
loop body logs and `continue`s, so no per-chunk anomaly aborts the run.
Returns (batches delivered, `total_processed`, requests issued). -/
def fetch_with_account_chunks (t : DataRequest → TransportOutcome α)
    (period : Option String) (bs fuel : Nat) :
    List (List String) → List (List α) × Nat × List DataRequest
  | [] => ([], 0, [])
  | ids :: rest =>
    let cd := fetch_chunk_data t period ids fuel
    let pb := if cd.1.isEmpty then ([], 0)
              else process_records_in_streaming_batches cd.1 bs
    let r := fetch_with_account_chunks t period bs fuel rest
    (pb.1 ++ r.1, pb.2 + r.2.1, cd.2 ++ r.2.2)

/-- Embeds `client._fetch_single_request`: one data request; on success the
records are streamed in batches, otherwise an exception
`NetSuite API error: ...` is raised to the caller. -/
def fetch_single_request (t : DataRequest → TransportOutcome α)
    (period : Option String) (bs : Nat) :
    Except String (List (List α) × Nat × List DataRequest) :=
  let req : DataRequest := ⟨period, Option.none, Option.none⟩
  let result := make_api_request (t req)
  if result.success ∧ result.results.isSome then
    let pr := process_records_in_streaming_batches (result.results.getD []) bs
    Except.ok (pr.1, pr.2, [req])
  else
    Except.error ("NetSuite API error: " ++ result.error.getD "Unknown error")

/-- Embeds `client._fetch_single_period_streaming`: try `getAccounts`; with
more accounts than `account_chunk_size` use account chunking, otherwise (or
when `getAccounts` fails, or no valid chunk exists) fall back to a single
request. -/
def fetch_single_period_streaming (api : NetSuiteApi α) (period : Option String)
    (chunkSize bs fuel : Nat) :
    Except String (List (List α) × Nat × List DataRequest) :=
  match get_accounts api with
  | Option.some accounts =>
    if chunkSize < accounts.length then
      let chunks := build_account_chunks accounts chunkSize
      if chunks.isEmpty then fetch_single_request api.dataOutcome period bs
      else Except.ok (fetch_with_account_chunks api.dataOutcome period bs fuel chunks)
    else fetch_single_request api.dataOutcome period bs
  | Option.none => fetch_single_request api.dataOutcome period bs

/-- The period loop of `client.fetch_gl_data_streaming`: periods run in
order, totals accumulate, and an exception raised by a period's fetch
propagates immediately. -/
def fetchPeriodsGo (api : NetSuiteApi α) (chunkSize bs fuel : Nat) :
    List (Option String) → Except String (List (List α) × Nat × List DataRequest)
  | [] => Except.ok ([], 0, [])
  | p :: ps =>
    match fetch_single_period_streaming api p chunkSize bs fuel with
    | Except.error e => Except.error e
    | Except.ok out =>
      match fetchPeriodsGo api chunkSize bs fuel ps with
      | Except.error e => Except.error e
      | Except.ok rest =>
        Except.ok (out.1 ++ rest.1, out.2.1 + rest.2.1, out.2.2 ++ rest.2.2)

/-- Embeds `client.fetch_gl_data_streaming` for the `period_ids` and
no-period paths (the `period_names` path is symmetric): the run delivers the
batches of every period in order and returns the total processed count,
instrumented with the requests issued. -/
def fetch_gl_data_streaming (api : NetSuiteApi α) (periodIds : List String)
    (chunkSize bs fuel : Nat) :
    Except String (List (List α) × Nat × List DataRequest) :=
  fetchPeriodsGo api chunkSize bs fuel
    (if periodIds.isEmpty then [Option.none] else periodIds.map Option.some)

/-- The records of one period in the exact order the API handed them to the
client (chunk by chunk, page by page) — the reference sequence the
batch stream is compared against. -/
def period_fetch_order (api : NetSuiteApi α) (period : Option String)
    (chunkSize fuel : Nat) : List α :=
  let single := (make_api_request (api.dataOutcome ⟨period, Option.none, Option.none⟩)).results.getD []
  match get_accounts api with
  | Option.some accounts =>
    if chunkSize < accounts.length then
      let chunks := build_account_chunks accounts chunkSize
      if chunks.isEmpty then single
      else (chunks.map (fun ids => (fetch_chunk_data api.dataOutcome period ids fuel).1)).flatten
    else single
  | Option.none => single

/-- The records of the whole run in API order, period after period. -/
def run_fetch_order (api : NetSuiteApi α) (periodIds : List String)
    (chunkSize fuel : Nat) : List α :=
  ((if periodIds.isEmpty then [Option.none] else periodIds.map Option.some).map
    (fun p => period_fetch_order api p chunkSize fuel)).flatten

/-! ## OAuth 1.0a signing (`client.generate_oauth_header`)

SHA-256 and HMAC are implemented over byte lists (`List Nat`, each entry
< 256) with 32-bit words as naturals reduced mod `2^32`; strings are taken
as ASCII. -/

def w32 (n : Nat) : Nat := n % 4294967296

def rotr32 (k n : Nat) : Nat := w32 ((n >>> k) ||| (n <<< (32 - k)))

/-- Bitwise complement on 32-bit words (for `n < 2^32`). -/
def bnot32 (n : Nat) : Nat := 4294967295 - n

def ch32 (x y z : Nat) : Nat := (x &&& y) ^^^ (bnot32 x &&& z)

def maj32 (x y z : Nat) : Nat := (x &&& y) ^^^ (x &&& z) ^^^ (y &&& z)

def bsig0 (x : Nat) : Nat := rotr32 2 x ^^^ rotr32 13 x ^^^ rotr32 22 x

def bsig1 (x : Nat) : Nat := rotr32 6 x ^^^ rotr32 11 x ^^^ rotr32 25 x

def ssig0 (x : Nat) : Nat := rotr32 7 x ^^^ rotr32 18 x ^^^ (x >>> 3)

def ssig1 (x : Nat) : Nat := rotr32 17 x ^^^ rotr32 19 x ^^^ (x >>> 10)

/-- The SHA-256 round constants. -/
def shaK : List Nat :=
  [1116352408, 1899447441, 3049323471, 3921009573,
   961987163, 1508970993, 2453635748, 2870763221,
   3624381080, 310598401, 607225278, 1426881987,
   1925078388, 2162078206, 2614888103, 3248222580,
   3835390401, 4022224774, 264347078, 604807628,
   770255983, 1249150122, 1555081692, 1996064986,
   2554220882, 2821834349, 2952996808, 3210313671,
   3336571891, 3584528711, 113926993, 338241895,
   666307205, 773529912, 1294757372, 1396182291,
   1695183700, 1986661051, 2177026350, 2456956037,
   2730485921, 2820302411, 3259730800, 3345764771,
   3516065817, 3600352804, 4094571909, 275423344,
   430227734, 506948616, 659060556, 883997877,
   958139571, 1322822218, 1537002063, 1747873779,
   1955562222, 2024104815, 2227730452, 2361852424,
   2428436474, 2756734187, 3204031479, 3329325298]

/-- The SHA-256 initial hash value. -/
def shaH0 : List Nat :=
  [1779033703, 3144134277, 1013904242, 2773480762,
   1359893119, 2600822924, 528734635, 1541459225]

/-- Big-endian 8-byte encoding. -/
def beBytes8 (n : Nat) : List Nat :=
  [(n >>> 56) % 256, (n >>> 48) % 256, (n >>> 40) % 256, (n >>> 32) % 256,
   (n >>> 24) % 256, (n >>> 16) % 256, (n >>> 8) % 256, n % 256]

/-- Big-endian 4-byte encoding of a 32-bit word. -/
def beBytes4 (n : Nat) : List Nat :=
  [(n >>> 24) % 256, (n >>> 16) % 256, (n >>> 8) % 256, n % 256]

/-- SHA-256 padding: `0x80`, zeros, then the bit length as 8 bytes. -/
def sha256Pad (msg : List Nat) : List Nat :=
  let padZeros := (119 - (msg.length % 64)) % 64
  msg ++ (128 :: List.replicate padZeros 0) ++ beBytes8 (msg.length * 8)

/-- Big-endian bytes to 32-bit words. -/
def toWords : List Nat → List Nat
  | a :: b :: c :: d :: rest => (((a * 256 + b) * 256 + c) * 256 + d) :: toWords rest
  | _ => []

/-- Words into 16-word blocks (`m` bounds the number of blocks). -/
def chunkWords : Nat → List Nat → List (List Nat)
  | 0, _ => []
  | Nat.succ m, l => if l.isEmpty then [] else l.take 16 :: chunkWords m (l.drop 16)

/-- Message-schedule extension of one block to 64 words. -/
def shaSchedule (block : List Nat) : Array Nat :=
  (List.range 48).foldl (fun w t =>
    w.push (w32 (ssig1 (w.getD (t + 14) 0) + w.getD (t + 9) 0 +
      ssig0 (w.getD (t + 1) 0) + w.getD t 0))) block.toArray

/-- The eight working variables of the compression function. -/
structure Hash8 where
  a : Nat
  b : Nat
  c : Nat
  d : Nat
  e : Nat
  f : Nat
  g : Nat
  h : Nat

/-- One SHA-256 round, fed the pair (round constant, schedule word). -/
def shaRound (st : Hash8) (kw : Nat × Nat) : Hash8 :=
  let t1 := w32 (st.h + bsig1 st.e + ch32 st.e st.f st.g + kw.1 + kw.2)
  let t2 := w32 (bsig0 st.a + maj32 st.a st.b st.c)
  ⟨w32 (t1 + t2), st.a, st.b, st.c, w32 (st.d + t1), st.e, st.f, st.g⟩

/-- Compression of one block into the running hash (eight words). -/
def shaCompress (hs block : List Nat) : List Nat :=
  let w := shaSchedule block
  let i : Hash8 := ⟨hs.getD 0 0, hs.getD 1 0, hs.getD 2 0, hs.getD 3 0,
    hs.getD 4 0, hs.getD 5 0, hs.getD 6 0, hs.getD 7 0⟩
  let z := (List.zip shaK w.toList).foldl shaRound i
  [w32 (i.a + z.a), w32 (i.b + z.b), w32 (i.c + z.c), w32 (i.d + z.d),
   w32 (i.e + z.e), w32 (i.f + z.f), w32 (i.g + z.g), w32 (i.h + z.h)]

/-- SHA-256 of a byte list, as 32 bytes. -/
def sha256 (msg : List Nat) : List Nat :=
  let blocks := chunkWords (msg.length + 72) (toWords (sha256Pad msg))
  ((blocks.foldl shaCompress shaH0).map beBytes4).flatten

/-- HMAC-SHA256 (`hmac.new(key, msg, hashlib.sha256).digest()`). -/
def hmacSha256 (key msg : List Nat) : List Nat :=
  let k1 := if 64 < key.length then sha256 key else key
  let k0 := k1 ++ List.replicate (64 - k1.length) 0
  sha256 ((k0.map (fun b => b ^^^ 0x5c)) ++
    sha256 ((k0.map (fun b => b ^^^ 0x36)) ++ msg))

def b64Alphabet : List Char :=
  "ABCDEFGHIJKLMNOPQRSTUVWXYZabcdefghijklmnopqrstuvwxyz0123456789+/".data

def b64Char (n : Nat) : Char := b64Alphabet.getD n 'A'

/-- Standard base64 of a byte list (`base64.b64encode`). -/
def base64Encode : List Nat → String
  | [] => ""
  | [a] =>
    String.mk [b64Char (a >>> 2), b64Char ((a &&& 3) <<< 4), '=', '=']
  | [a, b] =>
    String.mk [b64Char (a >>> 2), b64Char (((a &&& 3) <<< 4) ||| (b >>> 4)),
      b64Char ((b &&& 15) <<< 2), '=']
  | a :: b :: c :: rest =>
    String.mk [b64Char (a >>> 2), b64Char (((a &&& 3) <<< 4) ||| (b >>> 4)),
      b64Char (((b &&& 15) <<< 2) ||| (c >>> 6)), b64Char (c &&& 63)] ++
      base64Encode rest

/-- `urllib.parse.quote(s, safe='')`: percent-encode every character except
the unreserved set (ASCII input). -/
def isUnreservedChar (c : Char) : Bool :=
  c.isAlphanum ∨ c = '-' ∨ c = '_' ∨ c = '.' ∨ c = '~'

def hexUpperDigit (n : Nat) : Char :=
  if n < 10 then Char.ofNat ('0'.toNat + n) else Char.ofNat ('A'.toNat + n - 10)

def percentEncodeChar (c : Char) : List Char :=
  if isUnreservedChar c then [c]
  else ['%', hexUpperDigit (c.toNat / 16), hexUpperDigit (c.toNat % 16)]

def percentEncode (s : String) : String :=
  String.mk ((s.data.map percentEncodeChar).flatten)

/-- Lexicographic comparison of character lists by code point — Python's
string ordering. -/
def charListLe : List Char → List Char → Bool
  | [], _ => true
  | _ :: _, [] => false
  | a :: as, b :: bs =>
    if a.toNat < b.toNat then true
    else if b.toNat < a.toNat then false
    else charListLe as bs

/-- Python `s <= t` on strings. -/
def strLe (s t : String) : Bool := charListLe s.data t.data

/-- Insertion into a key-sorted parameter list. -/
def insertParam (p : String × String) :
    List (String × String) → List (String × String)
  | [] => [p]
  | q :: rest => if strLe p.1 q.1 then p :: q :: rest else q :: insertParam p rest

/-- `sorted(signature_params.items())` (keys are distinct, so key order
decides). -/
def sortParams : List (String × String) → List (String × String)
  | [] => []
  | p :: rest => insertParam p (sortParams rest)

/-- The credentials and deployment ids `NetSuiteClient.__init__` stores. -/
structure OAuthCreds where
  account : String
  consumer_key : String
  consumer_secret : String
  token_id : String
  token_secret : String
  script_id : String
  deploy_id : String

/-- `self.base_url` as built by `NetSuiteClient.__init__`. -/
def netsuite_base_url (account : String) : String :=
  "https://" ++ account ++ ".restlets.api.netsuite.com/app/site/hosting/restlet.nl"

/-- The fixed OAuth parameters of `generate_oauth_header` (nonce and
timestamp are drawn per call and passed here explicitly). -/
def oauth_param_list (c : OAuthCreds) (nonce timestamp : String) :
    List (String × String) :=
  [("oauth_consumer_key", c.consumer_key), ("oauth_nonce", nonce),
   ("oauth_signature_method", "HMAC-SHA256"), ("oauth_timestamp", timestamp),
   ("oauth_token", c.token_id), ("oauth_version", "1.0")]

/-- The URL query parameters included in the signature. -/
def url_param_list (c : OAuthCreds) : List (String × String) :=
  [("deploy", c.deploy_id), ("script", c.script_id)]

/-- The canonical parameter string: percent-encode and sort all parameters,
join as `key=value` with `&`. -/
def oauth_param_string (c : OAuthCreds) (nonce timestamp : String) : String :=
  String.intercalate "&"
    ((sortParams (url_param_list c ++ oauth_param_list c nonce timestamp)).map
      (fun kv => percentEncode kv.1 ++ "=" ++ percentEncode kv.2))

/-- The signature base string `POST&encoded(url)&encoded(paramstring)`. -/
def signature_base_string (c : OAuthCreds) (nonce timestamp : String) : String :=
  "POST&" ++ percentEncode (netsuite_base_url c.account) ++ "&" ++
    percentEncode (oauth_param_string c nonce timestamp)

/-- The signing key exactly as `generate_oauth_header` builds it:
`f-string` concatenation of the two secrets around `&`, with no
percent-encoding. -/
def oauth_signing_key (c : OAuthCreds) : String :=
  c.consumer_secret ++ "&" ++ c.token_secret

def strBytes (s : String) : List Nat := s.data.map Char.toNat

/-- The `oauth_signature` value computed by `generate_oauth_header`. -/
def oauth_signature (c : OAuthCreds) (nonce timestamp : String) : String :=
  base64Encode (hmacSha256 (strBytes (oauth_signing_key c))
    (strBytes (signature_base_string c nonce timestamp)))

/-- The authorization header assembled by `generate_oauth_header`. -/
def generate_oauth_header (c : OAuthCreds) (nonce timestamp : String) : String :=
  let pairs : List (String × String) :=
    [("oauth_consumer_key", c.consumer_key), ("oauth_nonce", nonce),
     ("oauth_signature", oauth_signature c nonce timestamp),
     ("oauth_signature_method", "HMAC-SHA256"), ("oauth_timestamp", timestamp),
     ("oauth_token", c.token_id), ("oauth_version", "1.0")]
  String.intercalate ", "
    (("OAuth realm=\"" ++ c.account ++ "\"") ::
      pairs.map (fun kv => kv.1 ++ "=\"" ++ percentEncode kv.2 ++ "\""))

/-- Follows the spec's words for the Request Signer: the same canonical
base string, HMAC-signed with key
`encoded(consumer_secret)&encoded(token_secret)` — i.e. with the two
secrets percent-encoded before concatenation, which `generate_oauth_header`
does not do. -/
def spec_oauth_signature (c : OAuthCreds) (nonce timestamp : String) : String :=
  base64Encode (hmacSha256
    (strBytes (percentEncode c.consumer_secret ++ "&" ++ percentEncode c.token_secret))
    (strBytes (signature_base_string c nonce timestamp)))

/-! ## Identifier-chunked pagination controller

`_sync_page_by_page` (streams/gl_detail.py) drives
`client.fetch_gl_data_pages` with the query builder `build_query`, but
`fetch_gl_data_pages` itself does not exist in the sources; the controller
below is modelled from the design document's description of it, on top of
the query semantics that `build_query` does define. -/

/-- The result-set semantics of `gl_detail.build_query`: the dataset `D` is
the full query result in its `ORDER BY t.id` order, and a positive
`min_internal_id` adds the filter `t.ID > min_internal_id` (a zero
`min_internal_id` adds no filter: "from the beginning"). -/
def query_rows (D : List α) (idOf : α → Nat) (minId : Nat) : List α :=
  if minId = 0 then D else D.filter (fun r => minId < idOf r)

/-- Modelled from the spec: `fetch_gl_data_pages`, the Chunked Pagination
Controller, which is absent from the sources (only its caller
`_sync_page_by_page` and `build_query` are present).  Per the design:
a chunk anchored at `minId` reads pages of `ps` records at offsets
`0, ps, …` up to the offset ceiling, so it can see at most
`(ceiling / ps + 1) * ps` rows; a short or empty page ends the chunk and,
with it, the whole fetch; a chunk whose pages were all full (the ceiling
was the only reason to stop) re-anchors a new chunk at the last yielded
row's internal id.  Returns (rows yielded in order, number of chunks);
`fuel` bounds the number of chunks. -/
def run_pagination_controller (D : List α) (idOf : α → Nat) (ps ceiling : Nat) :
    Nat → Nat → List α × Nat
  | 0, _ => ([], 0)
  | Nat.succ fuel, minId =>
    let rows := query_rows D idOf minId
    let cap := (ceiling / ps + 1) * ps
    let yielded := rows.take cap
    if rows.length < cap then (yielded, 1)
    else
      match yielded.getLast? with
      | Option.none => (yielded, 1)
      | Option.some last =>
        let rest := run_pagination_controller D idOf ps ceiling fuel (idOf last)
        (yielded ++ rest.1, rest.2 + 1)

/-! ## Sync state bookkeeping (`sync.py`) -/

/-- The bookmark dict assigned after the streaming loop of
`_sync_stream_with_memory_optimization` completes (the run's final state
for the stream): `last_sync`, `record_count`, `replication_method`,
`sync_completed`, plus `last_modified_date` when incremental. -/
def final_bookmark (replication_method : String) (record_count : Nat)
    (last_modified_date : Option String) (now : String) : Rec :=
  [("last_sync", PyVal.str now), ("record_count", PyVal.int record_count),
   ("replication_method", PyVal.str replication_method),
   ("sync_completed", PyVal.bool true)] ++
  (match last_modified_date with
   | Option.some d => [("last_modified_date", PyVal.str d)]
   | Option.none => [])

/-- All records written over a run that received `batches` from the client:
each batch goes through `process_batch`; `total_processed` is their
number. -/
def sync_written_records (batches : List (List Rec)) : List Rec :=
  (batches.map process_batch).flatten

/-- The final bookmark of a successful
`_sync_stream_with_memory_optimization` run that received `batches`:
`record_count` is the records written, the replication method mirrors
whether `last_modified_date` is configured. -/
def sync_final_bookmark (batches : List (List Rec))
    (last_modified_date : Option String) (now : String) : Rec :=
  final_bookmark
    (if last_modified_date.isSome then "INCREMENTAL" else "FULL_TABLE")
    (sync_written_records batches).length last_modified_date now

/-! ## Attribute surface of `NetSuiteClient` -/

/-- The instance attributes `NetSuiteClient.__init__` assigns. -/
def netsuite_client_instance_attrs : List String :=
  ["config", "account", "consumer_key", "consumer_secret", "token_id",
   "token_secret", "script_id", "deploy_id", "search_id",
   "account_chunk_size", "base_url"]

/-- The methods the `NetSuiteClient` class body defines. -/
def netsuite_client_methods : List String :=
  ["__init__", "generate_oauth_header", "fetch_gl_data_streaming",
   "_fetch_single_period_streaming", "_get_accounts",
   "_fetch_with_account_chunks", "_fetch_chunk_data",
   "_fetch_single_request", "_make_api_request",
   "_process_records_in_streaming_batches", "extract_field_value"]

/-- Python attribute lookup on a `NetSuiteClient` instance: the instance
dict, then the class dict; anything else raises `AttributeError` (the class
defines no `__getattr__`). -/
def client_getattr (name : String) : Except String Unit :=
  if netsuite_client_instance_attrs.contains name ∨
     netsuite_client_methods.contains name
  then Except.ok ()
  else Except.error ("AttributeError: " ++ name)

/-- The client-attribute reads `sync.sync_stream` performs, in program
order, up to the streaming fetch: `client.last_modified_date` at its line
286, then (inside `_sync_stream_with_memory_optimization`) at lines 334 and
341, then `client.fetch_gl_data_streaming` at line 441 — only after all of
which records would flow (`fetchResult` stands for the count a working
client would return). -/
def sync_stream_run (fetchResult : Nat) : Except String Nat := do
  let _ ← client_getattr "last_modified_date"
  let _ ← client_getattr "last_modified_date"
  let _ ← client_getattr "last_modified_date"
  let _ ← client_getattr "fetch_gl_data_streaming"
  Except.ok fetchResult

/-- The client-attribute reads `GLDetailStream._sync_page_by_page`
performs, in program order, up to the page stream:
`client.last_modified_date` at gl_detail.py lines 372 and 389, then
`client.record_batch_size` (line 407) and `client.fetch_gl_data_pages`
(line 415) inside `process_pages`. -/
def sync_page_by_page_run (fetchResult : Nat) : Except String Nat := do
  let _ ← client_getattr "last_modified_date"
  let _ ← client_getattr "last_modified_date"
  let _ ← client_getattr "record_batch_size"
  let _ ← client_getattr "fetch_gl_data_pages"
  Except.ok fetchResult

/-! ## Claim statements and concrete scenarios -/

/-- A successful one-page body carrying `l`. -/
def okNatBody (l : List Nat) : ApiBody Nat :=
  ⟨true, Option.some l, Option.none, false, Option.none⟩

/-- A transport outcome classified as an anomaly by the error-handling
design: a timeout, a transport failure, or a non-2xx status other than the
end-of-data 404. -/
def anomalousOutcome : TransportOutcome α → Bool
  | TransportOutcome.timeout => true
  | TransportOutcome.netFailure _ => true
  | TransportOutcome.http s _ _ => ¬(200 ≤ s ∧ s < 300) ∧ s ≠ 404

/-- An HTTP "not found" response. -/
def notFoundOutcome : TransportOutcome α → Bool
  | TransportOutcome.http s _ _ => s = 404
  | _ => false

def resultsIsEmptyList : Option (List α) → Bool
  | Option.some [] => true
  | _ => false

/-- A successful response carrying an empty page that ends the pagination
loop (no truthy continuation). -/
def emptyPageOutcome : TransportOutcome α → Bool
  | TransportOutcome.http s body _ =>
    s = 200 ∧ body.success ∧ resultsIsEmptyList body.results ∧
      ¬(body.hasMoreResults ∧ truthyNat body.nextStartIndex)
  | _ => false

/-- Outcomes that the claim calls indistinguishable: equal, or one is a
"not found" response and the other an empty page. -/
def outcomeEquiv (o1 o2 : TransportOutcome α) : Prop :=
  o1 = o2 ∨ (notFoundOutcome o1 = true ∧ emptyPageOutcome o2 = true) ∨
    (emptyPageOutcome o1 = true ∧ notFoundOutcome o2 = true)

/-- The C2 claim as stated: over records carrying their internal id, every
successful run of `fetch_gl_data_streaming` delivers a sequence that is
non-decreasing in the ordering field. -/
def claimC2Statement : Prop :=
  ∀ (api : NetSuiteApi Nat) (pids : List String) (cs bs fuel : Nat)
    (out : List (List Nat) × Nat × List DataRequest),
    fetch_gl_data_streaming api pids cs bs fuel = Except.ok out →
    List.Pairwise (· ≤ ·) out.1.flatten

/-- The C4 claim as stated: the final bookmark of a successful run carries
a `last_internal_id` equal to the `internal_id` of the last record
yielded. -/
def claimC4Statement : Prop :=
  ∀ (batches : List (List Rec)) (lmd : Option String) (now : String) (r : Rec),
    (sync_written_records batches).getLast? = Option.some r →
    lookupVal (sync_final_bookmark batches lmd now) "last_internal_id" =
      lookupVal r "internal_id"

/-- The C5 claim as stated, contrapositively: a run that completes without
raising never issued a request whose outcome was an anomaly (anomalies
abort the run). -/
def claimC5Statement : Prop :=
  ∀ (api : NetSuiteApi Nat) (pids : List String) (cs bs fuel : Nat)
    (out : List (List Nat) × Nat × List DataRequest),
    fetch_gl_data_streaming api pids cs bs fuel = Except.ok out →
    ∀ req ∈ out.2.2, anomalousOutcome (api.dataOutcome req) = false

/-- The C6 claim as stated: a "not found" response makes the fetch layer
return a successful empty record list, and the single-request fetch never
raises on it. -/
def claimC6Statement : Prop :=
  (∀ (o : TransportOutcome Nat), notFoundOutcome o = true →
    (make_api_request o).success = true ∧
    (make_api_request o).results = Option.some []) ∧
  (∀ (t : DataRequest → TransportOutcome Nat) (period : Option String) (bs : Nat),
    notFoundOutcome (t ⟨period, Option.none, Option.none⟩) = true →
    ∃ out, fetch_single_request t period bs = Except.ok out)

/-- The C8 claim as stated: the emitted `oauth_signature` always equals the
spec's formula (whose signing key percent-encodes the secrets). -/
def claimC8Statement : Prop :=
  ∀ (c : OAuthCreds) (nonce timestamp : String),
    oauth_signature c nonce timestamp = spec_oauth_signature c nonce timestamp

/-- Two accounts, one-chunk-per-account; the first chunk's record has the
larger internal id. -/
def apiC2 : NetSuiteApi Nat :=
  ⟨TransportOutcome.http 200
    ⟨true, Option.some [⟨Option.some "1"⟩, ⟨Option.some "2"⟩],
      Option.none, false, Option.none⟩ "",
   fun req => TransportOutcome.http 200
    (okNatBody (if req.accountIds = Option.some ["1"] then [5] else [3])) ""⟩

/-- A well-ordered variant of the same shape: chunk 1 yields id 1, chunk 2
yields id 2. -/
def apiC2W : NetSuiteApi Nat :=
  ⟨TransportOutcome.http 200
    ⟨true, Option.some [⟨Option.some "1"⟩, ⟨Option.some "2"⟩],
      Option.none, false, Option.none⟩ "",
   fun req => TransportOutcome.http 200
    (okNatBody (if req.accountIds = Option.some ["1"] then [1] else [2])) ""⟩

/-- Two accounts; the first chunk's only request returns HTTP 500, the
second chunk succeeds with one record. -/
def apiC5 : NetSuiteApi Nat :=
  ⟨TransportOutcome.http 200
    ⟨true, Option.some [⟨Option.some "1"⟩, ⟨Option.some "2"⟩],
      Option.none, false, Option.none⟩ "",
   fun req =>
    if req.accountIds = Option.some ["1"] then
      TransportOutcome.http 500 (okNatBody []) "boom"
    else TransportOutcome.http 200 (okNatBody [7]) ""⟩

/-- The first request of the failing chunk of `apiC5`. -/
def reqC5A : DataRequest := ⟨Option.none, Option.some ["1"], Option.some 0⟩

/-- The first request of the chunk after the failing one. -/
def reqC5B : DataRequest := ⟨Option.none, Option.some ["2"], Option.some 0⟩

/-- A transport answering every data request with HTTP 404. -/
def transport404 : DataRequest → TransportOutcome Nat :=
  fun _ => TransportOutcome.http 404 (okNatBody []) "Not Found"

/-- A transport answering every data request with HTTP 404 (C6 witness). -/
def transportC6NotFound : DataRequest → TransportOutcome Nat :=
  fun _ => TransportOutcome.http 404 (okNatBody []) "gone"

/-- A transport answering every data request with a successful empty page
(C6 witness). -/
def transportC6Empty : DataRequest → TransportOutcome Nat :=
  fun _ => TransportOutcome.http 200 (okNatBody []) ""

/-- Credentials whose consumer secret contains a space, which
percent-encoding changes. -/
def credsC8 : OAuthCreds := ⟨"a", "ck", "p q", "ti", "ts", "s", "d"⟩

/-- Credentials whose secrets consist of unreserved characters only. -/
def credsC8W : OAuthCreds := ⟨"a", "ck", "psec", "ti", "tsec", "s", "d"⟩

/-- A record whose identifiers transform to valid integers. -/
def recC4 : Rec :=
  [("internal_id", PyVal.str "9"), ("trans_acct_line_id", PyVal.str "4")]

/-! ## Known-answer sanity checks for the crypto primitives -/

/-- SHA-256 of the empty message (FIPS 180 test vector). -/
theorem sha256_empty_vector :
    sha256 [] =
      [0xe3, 0xb0, 0xc4, 0x42, 0x98, 0xfc, 0x1c, 0x14, 0x9a, 0xfb, 0xf4, 0xc8,
       0x99, 0x6f, 0xb9, 0x24, 0x27, 0xae, 0x41, 0xe4, 0x64, 0x9b, 0x93, 0x4c,
       0xa4, 0x95, 0x99, 0x1b, 0x78, 0x52, 0xb8, 0x55] := by decide

/-- HMAC-SHA256 test case 2 of RFC 4231 (key "Jefe", data
"what do ya want for nothing?"). -/
theorem hmac_sha256_rfc4231_vector :
    hmacSha256 (strBytes "Jefe") (strBytes "what do ya want for nothing?") =
      [0x5b, 0xdc, 0xc1, 0x46, 0xbf, 0x60, 0x75, 0x4e, 0x6a, 0x04, 0x24, 0x26,
       0x08, 0x95, 0x75, 0xc7, 0x5a, 0x00, 0x3f, 0x08, 0x9d, 0x27, 0x39, 0x83,
       0x9d, 0xec, 0x58, 0xb9, 0x64, 0xec, 0x38, 0x43] := by decide

/-- Base64 of "Man" (RFC 4648 example). -/
theorem base64_vector : base64Encode (strBytes "Man") = "TWFu" := by decide

/-! ## C1 — streaming batch dispatch -/

/-- C1 (code bug): `_process_records_in_streaming_batches` pops the
dispatched slice out of the very list its loop indices still refer to, so
with 4 records and `batch_size = 1` the callback sees `[0], [2], [], []` —
records 1 and 3 are never dispatched and `processed_count` is 2, not 4 —
instead of the contract's `[0], [1], [2], [3]`. -/
theorem claim_C1_streaming_batches_drop_records :
    process_records_in_streaming_batches [0, 1, 2, 3] 1 = ([[0], [2], [], []], 2) ∧
    (process_records_in_streaming_batches [0, 1, 2, 3] 1).1.flatten ≠ [0, 1, 2, 3] ∧
    (process_records_in_streaming_batches (List.range 1000) 250).1.map List.length =
      [250, 250, 0, 0] := by
  refine ⟨by decide, by decide, by decide⟩

/-! ## C9 — missing client attributes -/

/-- C9: `NetSuiteClient.__init__` defines neither `last_modified_date` nor
`record_batch_size` nor `fetch_gl_data_pages`, so both `sync_stream` and
`GLDetailStream._sync_page_by_page` raise `AttributeError` on their first
client read — before any record is fetched, whatever a working fetch would
have returned. -/
theorem claim_C9_attribute_errors :
    (∀ n : Nat, sync_stream_run n =
      Except.error "AttributeError: last_modified_date") ∧
    (∀ n : Nat, sync_page_by_page_run n =
      Except.error "AttributeError: last_modified_date") ∧
    netsuite_client_instance_attrs.contains "last_modified_date" = false ∧
    netsuite_client_methods.contains "last_modified_date" = false ∧
    netsuite_client_instance_attrs.contains "record_batch_size" = false ∧
    netsuite_client_methods.contains "record_batch_size" = false ∧
    netsuite_client_instance_attrs.contains "fetch_gl_data_pages" = false ∧
    netsuite_client_methods.contains "fetch_gl_data_pages" = false := by
  exact ⟨fun n => rfl, fun n => rfl, by decide, by decide, by decide, by decide,
    by decide, by decide⟩

/-! ## C10 — numeric conversion totality -/

/-- `convert_to_integer` on a string, phrased over the stripped form (the
`s = ''` early return coincides with an empty strip). -/
theorem convert_to_integer_str (s : String) :
    convert_to_integer (PyVal.str s) =
      (if pyStrip s = "" then Except.ok PyVal.none
       else
         match pyParseInt (pyStrip s) with
         | Option.some n => Except.ok (PyVal.int n)
         | Option.none =>
           match pyFloat (pyStrip s) with
           | Option.some (PyFloatVal.finite q) => Except.ok (PyVal.int (pyTrunc q))
           | Option.some (PyFloatVal.infinite _) => Except.error "OverflowError"
           | Option.some PyFloatVal.nan => Except.ok (PyVal.str s)
           | Option.none => Except.ok (PyVal.str s)) := by
  show (if s = "" then Except.ok PyVal.none else _) = _
  by_cases hs : s = ""
  · subst hs
    have h0 : pyStrip "" = "" := rfl
    simp [h0]
  · rw [if_neg hs]

/-- `convert_to_number` on a string, phrased over the cleaned form. -/
theorem convert_to_number_str (s : String) :
    convert_to_number (PyVal.str s) =
      (let cleaned := pyStrip (removeChar '$' (removeChar ',' s))
       if cleaned = "" then PyVal.none
       else if pyContainsChar cleaned '.' ∨ pyContainsChar (pyLower cleaned) 'e' then
         match pyFloat cleaned with
         | Option.some v => PyVal.float v
         | Option.none => PyVal.str s
       else
         match pyParseInt cleaned with
         | Option.some n => PyVal.int n
         | Option.none => PyVal.str s) := by
  show (if s = "" then PyVal.none else _) = _
  by_cases hs : s = ""
  · subst hs
    have h0 : pyStrip (removeChar '$' (removeChar ',' "")) = "" := rfl
    simp [h0]
  · rw [if_neg hs]

/-- C10: `convert_to_integer` and `convert_to_number` return `None` exactly
for `None`, the empty string, or a string that is empty once the function's
cleaning (strip, resp. `,`/`$` removal plus strip) is applied; a string
that parses neither as int nor as float comes back unchanged as the
original string rather than raising or becoming `None` — with one real
exception: a string whose `float()` value is infinite (an `inf` spelling or
an overflowing literal such as `'1e400'`) makes `convert_to_integer` raise
`OverflowError`, which its `except (ValueError, TypeError, AttributeError)`
clause does not catch. -/
theorem claim_C10_conversion_totality (v : PyVal) :
    ((convert_to_integer v = Except.ok PyVal.none) ↔
      (v = PyVal.none ∨ ∃ s, v = PyVal.str s ∧ pyStrip s = "")) ∧
    ((convert_to_number v = PyVal.none) ↔
      (v = PyVal.none ∨ ∃ s, v = PyVal.str s ∧
        pyStrip (removeChar '$' (removeChar ',' s)) = "")) ∧
    (∀ s, v = PyVal.str s → pyStrip s ≠ "" →
      pyParseInt (pyStrip s) = Option.none →
      pyFloat (pyStrip s) = Option.none →
      convert_to_integer v = Except.ok (PyVal.str s)) ∧
    (∀ s, v = PyVal.str s →
      pyStrip (removeChar '$' (removeChar ',' s)) ≠ "" →
      pyParseInt (pyStrip (removeChar '$' (removeChar ',' s))) = Option.none →
      pyFloat (pyStrip (removeChar '$' (removeChar ',' s))) = Option.none →
      convert_to_number v = PyVal.str s) ∧
    (∀ s b, v = PyVal.str s → pyStrip s ≠ "" →
      pyParseInt (pyStrip s) = Option.none →
      pyFloat (pyStrip s) = Option.some (PyFloatVal.infinite b) →
      convert_to_integer v = Except.error "OverflowError") := by
  refine ⟨?_, ?_, ?_, ?_, ?_⟩
  · cases v with
    | none => simp [convert_to_integer]
    | str s =>
      rw [convert_to_integer_str]
      by_cases h : pyStrip s = ""
      · simp [h]
      · rw [if_neg h]
        constructor
        · intro hEq
          exfalso
          rcases hi : pyParseInt (pyStrip s) with _ | n
          · rcases hf : pyFloat (pyStrip s) with _ | w
            · rw [hi, hf] at hEq
              exact PyVal.noConfusion (Except.ok.inj hEq)
            · cases w with
              | finite q =>
                rw [hi, hf] at hEq
                exact PyVal.noConfusion (Except.ok.inj hEq)
              | infinite b =>
                rw [hi, hf] at hEq
                exact Except.noConfusion hEq
              | nan =>
                rw [hi, hf] at hEq
                exact PyVal.noConfusion (Except.ok.inj hEq)
          · rw [hi] at hEq
            exact PyVal.noConfusion (Except.ok.inj hEq)
        · rintro (hAbs | ⟨s', hs', hstrip⟩)
          · exact absurd hAbs (by intro hc; exact PyVal.noConfusion hc)
          · cases hs'; exact absurd hstrip h
    | int n => simp [convert_to_integer]
    | float w => cases w <;> simp [convert_to_integer]
    | bool b => simp [convert_to_integer]
  · cases v with
    | none => simp [convert_to_number]
    | str s =>
      rw [convert_to_number_str]
      by_cases h : pyStrip (removeChar '$' (removeChar ',' s)) = ""
      · simp [h]
      · simp only [if_neg h]
        constructor
        · intro hEq
          exfalso
          by_cases hd : (pyContainsChar (pyStrip (removeChar '$' (removeChar ',' s))) '.' ∨
              pyContainsChar (pyLower (pyStrip (removeChar '$' (removeChar ',' s)))) 'e')
          · rw [if_pos hd] at hEq
            rcases hf : pyFloat (pyStrip (removeChar '$' (removeChar ',' s))) with _ | w
            · rw [hf] at hEq; exact PyVal.noConfusion hEq
            · rw [hf] at hEq; exact PyVal.noConfusion hEq
          · rw [if_neg hd] at hEq
            rcases hi : pyParseInt (pyStrip (removeChar '$' (removeChar ',' s))) with _ | n
            · rw [hi] at hEq; exact PyVal.noConfusion hEq
            · rw [hi] at hEq; exact PyVal.noConfusion hEq
        · rintro (hAbs | ⟨s', hs', hclean⟩)
          · exact absurd hAbs (by intro hc; exact PyVal.noConfusion hc)
          · cases hs'; exact absurd hclean h
    | int n => simp [convert_to_number]
    | float w => simp [convert_to_number]
    | bool b => simp [convert_to_number]
  · intro s hv hne hInt hFloat
    subst hv
    rw [convert_to_integer_str, if_neg hne, hInt, hFloat]
  · intro s hv hne hInt hFloat
    subst hv
    rw [convert_to_number_str]
    simp only [if_neg hne]
    by_cases hd : (pyContainsChar (pyStrip (removeChar '$' (removeChar ',' s))) '.' ∨
        pyContainsChar (pyLower (pyStrip (removeChar '$' (removeChar ',' s)))) 'e')
    · rw [if_pos hd, hFloat]
    · rw [if_neg hd, hInt]
  · intro s b hv hne hInt hFloat
    subst hv
    rw [convert_to_integer_str, if_neg hne, hInt, hFloat]

/-- C10 witness: the unparseable string `"abc"` survives both conversions
unchanged, and the infinite string `"inf"` makes `convert_to_integer` raise
`OverflowError`. -/
theorem claim_C10_witness :
    convert_to_integer (PyVal.str "abc") = Except.ok (PyVal.str "abc") ∧
    convert_to_number (PyVal.str "abc") = PyVal.str "abc" ∧
    convert_to_integer (PyVal.str "inf") = Except.error "OverflowError" :=
  ⟨(claim_C10_conversion_totality (PyVal.str "abc")).2.2.1 "abc" rfl
      (by decide) (by decide) (by decide),
   (claim_C10_conversion_totality (PyVal.str "abc")).2.2.2.1 "abc" rfl
      (by decide) (by decide) (by decide),
   (claim_C10_conversion_totality (PyVal.str "inf")).2.2.2.2 "inf" false rfl
      (by decide) (by decide) (by decide)⟩

/-! ## C7 — malformed records are skipped, not fatal -/

/-- The record loop distributes over list append. -/
theorem process_batch_append (l1 l2 : List Rec) :
    process_batch (l1 ++ l2) = process_batch l1 ++ process_batch l2 := by
  induction l1 with
  | nil => rfl
  | cons r rest ih =>
    simp only [List.cons_append, process_batch]
    cases transform_record r <;> simp [ih]

/-- C7: a record whose transformed `internal_id` or `trans_acct_line_id` is
`None` (or absent) makes `transform_record` return `None`, and
`process_batch` then skips exactly that record: the records before and
after it are processed as if it were not there, and the (total) processing
function raises nothing. -/
theorem claim_C7_missing_ids_skipped (pre post : List Rec) (r : Rec)
    (h : isNoneVal (lookupVal (transformFields r) "internal_id") = true ∨
         isNoneVal (lookupVal (transformFields r) "trans_acct_line_id") = true) :
    transform_record r = Option.none ∧
    process_batch (pre ++ r :: post) = process_batch pre ++ process_batch post := by
  have ht : transform_record r = Option.none := by
    cases he : transformFieldsE r with
    | error e => simp [transform_record, transform_recordE, he]
    | ok t =>
      have htf : transformFields r = t := by
        simp only [transformFields, he]
        rfl
      rw [htf] at h
      rcases h with h | h
      · by_cases h2 : isNoneVal (lookupVal t "trans_acct_line_id") = true
        · simp [transform_record, transform_recordE, he, h2]
        · simp [transform_record, transform_recordE, he, h2, h]
      · simp [transform_record, transform_recordE, he, h]
  refine ⟨ht, ?_⟩
  rw [process_batch_append]
  have : process_batch (r :: post) = process_batch post := by
    simp only [process_batch, ht]
  rw [this]

/-- C7 witness: a batch whose middle record has an empty `internal_id` is
processed into exactly its first and third records. -/
theorem claim_C7_witness :
    transform_record [("internal_id", PyVal.str ""),
      ("trans_acct_line_id", PyVal.str "4")] = Option.none ∧
    process_batch ([recC4] ++ [("internal_id", PyVal.str ""),
      ("trans_acct_line_id", PyVal.str "4")] :: [recC4]) =
      process_batch [recC4] ++ process_batch [recC4] :=
  claim_C7_missing_ids_skipped [recC4] [recC4]
    [("internal_id", PyVal.str ""), ("trans_acct_line_id", PyVal.str "4")]
    (Or.inl (by decide))

/-! ## C4 — the final bookmark -/

/-- C4 counterexample: a successful run that wrote one record (internal id
9) persists a final bookmark with no `last_internal_id` key at all. -/
theorem claim_C4_counterexample :
    ¬ claimC4Statement ∧
    lookupVal (sync_final_bookmark [[recC4]] Option.none "t0") "last_internal_id" =
      Option.none ∧
    sync_written_records [[recC4]] ≠ [] := by
  refine ⟨?_, by decide, by decide⟩
  intro h
  have := h [[recC4]] Option.none "t0"
    [("internal_id", PyVal.int 9), ("trans_acct_line_id", PyVal.int 4)] (by decide)
  exact absurd this (by decide)

/-- C4 as amended: the final bookmark of
`_sync_stream_with_memory_optimization` carries `record_count` (the number
of records written), `sync_completed = True` and the replication method —
and no `last_internal_id` field at all. -/
theorem claim_C4_amended (batches : List (List Rec)) (lmd : Option String)
    (now : String) :
    lookupVal (sync_final_bookmark batches lmd now) "last_internal_id" =
      Option.none ∧
    lookupVal (sync_final_bookmark batches lmd now) "record_count" =
      Option.some (PyVal.int (sync_written_records batches).length) ∧
    lookupVal (sync_final_bookmark batches lmd now) "sync_completed" =
      Option.some (PyVal.bool true) ∧
    lookupVal (sync_final_bookmark batches lmd now) "replication_method" =
      Option.some (PyVal.str (if lmd.isSome then "INCREMENTAL" else "FULL_TABLE")) := by
  cases lmd <;>
    simp [sync_final_bookmark, final_bookmark, lookupVal, List.find?]

/-! ## C5 — anomalies do not abort the chunked run -/

/-- C5 counterexample: chunk 1's only request fails with HTTP 500, yet the
run completes without error, delivers chunk 2's records, and the request
log shows chunk 2 was fetched after the failing chunk. -/
theorem claim_C5_counterexample :
    ¬ claimC5Statement ∧
    fetch_gl_data_streaming apiC5 [] 1 10 1 =
      Except.ok ([[7]], 1, [reqC5A, reqC5B]) ∧
    anomalousOutcome (apiC5.dataOutcome reqC5A) = true := by
  refine ⟨?_, rfl, by decide⟩
  intro h
  have := h apiC5 [] 1 10 1 ([[7]], 1, [reqC5A, reqC5B]) rfl reqC5A (by decide)
  exact absurd this (by decide)

/-- With any fuel at all, a chunk's pagination starts by issuing the request
at `startIndex = 0`. -/
theorem chunk_first_request_mem {α : Type} (t : DataRequest → TransportOutcome α)
    (period : Option String) (ids : List String) (fuel : Nat) (h : 0 < fuel) :
    (⟨period, Option.some ids, Option.some 0⟩ : DataRequest) ∈
      (fetchChunkPagesGo t period ids fuel 0).2 := by
  cases fuel with
  | zero => omega
  | succ f =>
    simp only [fetchChunkPagesGo]
    split
    · split
      · simp
      · simp
    · simp

/-- C5 as amended: a per-chunk anomaly is logged and skipped rather than
surfaced — `_fetch_with_account_chunks` returns normally and still issues
the first page request of every chunk, including every chunk after a
failing one. -/
theorem claim_C5_amended {α : Type} (t : DataRequest → TransportOutcome α)
    (period : Option String) (bs fuel : Nat) (hfuel : 0 < fuel) :
    ∀ (chunks : List (List String)) (ids : List String), ids ∈ chunks →
      (⟨period, Option.some ids, Option.some 0⟩ : DataRequest) ∈
        (fetch_with_account_chunks t period bs fuel chunks).2.2 := by
  intro chunks
  induction chunks with
  | nil => intro ids h; cases h
  | cons c rest ih =>
    intro ids hmem
    simp only [fetch_with_account_chunks]
    rcases List.mem_cons.mp hmem with h | h
    · subst h
      exact List.mem_append_left _ (chunk_first_request_mem t period ids fuel hfuel)
    · exact List.mem_append_right _ (ih ids h)

/-- C5 witness: in the HTTP-500 scenario the chunk after the failing one is
still requested. -/
theorem claim_C5_witness :
    (⟨Option.none, Option.some ["2"], Option.some 0⟩ : DataRequest) ∈
      (fetch_with_account_chunks apiC5.dataOutcome Option.none 10 1
        [["1"], ["2"]]).2.2 :=
  claim_C5_amended apiC5.dataOutcome Option.none 10 1 (by decide)
    [["1"], ["2"]] ["2"] (by decide)

/-! ## C6 — "not found" handling -/

theorem make_api_request_200 {α : Type} (b : ApiBody α) (tx : String) :
    make_api_request (TransportOutcome.http 200 b tx) = b := rfl

theorem make_api_request_non200 {α : Type} {s : Nat} (hs : s ≠ 200)
    (b : ApiBody α) (tx : String) :
    make_api_request (TransportOutcome.http s b tx) =
      ⟨false, Option.none, Option.some ("HTTP " ++ toString s ++ ": " ++ tx),
        false, Option.none⟩ := by
  simp [make_api_request, hs]

theorem notFound_inv {α : Type} {o : TransportOutcome α}
    (h : notFoundOutcome o = true) :
    ∃ b tx, o = TransportOutcome.http 404 b tx := by
  cases o with
  | http s b tx =>
    have hs : s = 404 := by simpa [notFoundOutcome] using h
    exact ⟨b, tx, by rw [hs]⟩
  | timeout => simp [notFoundOutcome] at h
  | netFailure m => simp [notFoundOutcome] at h

theorem resultsIsEmptyList_inv {α : Type} {r : Option (List α)}
    (h : resultsIsEmptyList r = true) : r = Option.some [] := by
  cases r with
  | none => simp [resultsIsEmptyList] at h
  | some l =>
    cases l with
    | nil => rfl
    | cons a l => simp [resultsIsEmptyList] at h

theorem emptyPage_inv {α : Type} {o : TransportOutcome α}
    (h : emptyPageOutcome o = true) :
    ∃ b tx, o = TransportOutcome.http 200 b tx ∧ b.success = true ∧
      b.results = Option.some [] ∧
      ¬(b.hasMoreResults = true ∧ truthyNat b.nextStartIndex = true) := by
  cases o with
  | http s b tx =>
    simp only [emptyPageOutcome, Bool.and_eq_true, decide_eq_true_eq,
      Bool.not_eq_true'] at h
    obtain ⟨hs, hsucc, hres, hmore⟩ := h
    refine ⟨b, tx, by rw [hs], hsucc, resultsIsEmptyList_inv hres, ?_⟩
    intro hc
    rw [hc.1, hc.2] at hmore
    simp at hmore
  | timeout => simp [emptyPageOutcome] at h
  | netFailure m => simp [emptyPageOutcome] at h

/-- The chunk pagination loop cannot tell a "not found" response from an
empty final page: transports that agree up to that equivalence produce
identical records and request logs. -/
theorem chunk_pages_equiv {α : Type} (t1 t2 : DataRequest → TransportOutcome α)
    (period : Option String) (ids : List String)
    (heq : ∀ req, outcomeEquiv (t1 req) (t2 req)) :
    ∀ fuel start, fetchChunkPagesGo t1 period ids fuel start =
      fetchChunkPagesGo t2 period ids fuel start := by
  intro fuel
  induction fuel with
  | zero => intro start; rfl
  | succ f ih =>
    intro start
    rcases heq ⟨period, Option.some ids, Option.some start⟩ with h | ⟨h1, h2⟩ | ⟨h1, h2⟩
    · simp only [fetchChunkPagesGo, h, ih]
    · obtain ⟨b1, tx1, e1⟩ := notFound_inv h1
      obtain ⟨b2, tx2, e2, hsucc, hres, hmore⟩ := emptyPage_inv h2
      simp only [fetchChunkPagesGo, e1, e2,
        make_api_request_non200 (by decide : (404 : Nat) ≠ 200),
        make_api_request_200]
      rw [if_neg (by simp), if_pos (by simp [hsucc, hres])]
      rw [if_neg (by intro hc; exact hmore ⟨hc.1, hc.2⟩)]
      simp [hres]
    · obtain ⟨b2, tx2, e2⟩ := notFound_inv h2
      obtain ⟨b1, tx1, e1, hsucc, hres, hmore⟩ := emptyPage_inv h1
      simp only [fetchChunkPagesGo, e1, e2,
        make_api_request_non200 (by decide : (404 : Nat) ≠ 200),
        make_api_request_200]
      rw [if_pos (by simp [hsucc, hres])]
      rw [if_neg (by intro hc; exact hmore ⟨hc.1, hc.2⟩)]
      rw [if_neg (by simp)]
      simp [hres]

/-- C6 counterexample: a 404 makes `_make_api_request` return a
`success: False` error dict — not a successful empty record list — and
`_fetch_single_request` turns it into a raised
`NetSuite API error` exception. -/
theorem claim_C6_counterexample :
    ¬ claimC6Statement ∧
    fetch_single_request transport404 Option.none 10 =
      Except.error "NetSuite API error: HTTP 404: Not Found" ∧
    (make_api_request
      (transport404 ⟨Option.none, Option.none, Option.none⟩)).success = false := by
  refine ⟨?_, rfl, rfl⟩
  intro h
  have h1 := h.1 (transport404 ⟨Option.none, Option.none, Option.none⟩) (by decide)
  exact absurd h1.1 (by decide)

/-- C6 as amended: in the chunk pagination path a "not found" response is
indistinguishable from an empty page (both end the chunk with the records
fetched so far and raise nothing), but `_make_api_request` reports it as a
`success: False` error result rather than an empty record list, and
`_fetch_single_request` treats it as a fatal API error. -/
theorem claim_C6_amended {α : Type} :
    (∀ (t1 t2 : DataRequest → TransportOutcome α) (period : Option String)
      (ids : List String) (fuel start : Nat),
      (∀ req, outcomeEquiv (t1 req) (t2 req)) →
      fetchChunkPagesGo t1 period ids fuel start =
        fetchChunkPagesGo t2 period ids fuel start) ∧
    (∀ o : TransportOutcome α, notFoundOutcome o = true →
      (make_api_request o).success = false ∧
      (make_api_request o).results = Option.none) ∧
    (∀ (t : DataRequest → TransportOutcome α) (period : Option String) (bs : Nat),
      notFoundOutcome (t ⟨period, Option.none, Option.none⟩) = true →
      ∃ e, fetch_single_request t period bs = Except.error e) := by
  refine ⟨?_, ?_, ?_⟩
  · intro t1 t2 period ids fuel start heq
    exact chunk_pages_equiv t1 t2 period ids heq fuel start
  · intro o h
    obtain ⟨b, tx, rfl⟩ := notFound_inv h
    rw [make_api_request_non200 (by decide : (404 : Nat) ≠ 200)]
    exact ⟨rfl, rfl⟩
  · intro t period bs h
    obtain ⟨b, tx, he⟩ := notFound_inv h
    refine ⟨"NetSuite API error: HTTP 404: " ++ tx, ?_⟩
    simp only [fetch_single_request]
    rw [he, make_api_request_non200 (by decide : (404 : Nat) ≠ 200)]
    rw [if_neg (by simp)]
    rfl

/-- C6 witness: an all-404 transport and an all-empty-page transport drive
the chunk pagination to the same records and the same request log. -/
theorem claim_C6_witness :
    fetchChunkPagesGo transportC6NotFound Option.none ["1"] 2 0 =
      fetchChunkPagesGo transportC6Empty Option.none ["1"] 2 0 :=
  (claim_C6_amended.1 transportC6NotFound transportC6Empty Option.none ["1"] 2 0
    (fun _ => Or.inr (Or.inl ⟨rfl, rfl⟩)))

/-! ## C2 — delivery order -/

/-- What the (index-corrupted) streaming loop dispatches is still an
in-order sublist of the live list from the current offset on: each batch is
a contiguous slice, later batches lie strictly after it, and skipped
records are simply absent. -/
theorem streamBatchesGo_flatten_sublist {α : Type} (bs n : Nat) :
    ∀ (m i : Nat) (cur : List α), cur.length ≤ n →
      List.Sublist (streamBatchesGo bs n m i cur).flatten (cur.drop i) := by
  intro m
  induction m with
  | zero => intro i cur _; exact List.nil_sublist _
  | succ m ih =>
    intro i cur hlen
    simp only [streamBatchesGo, List.flatten_cons]
    by_cases hin : n ≤ i
    · have h1 : min (i + bs) n - i = 0 := by omega
      have h2 : cur.drop (min (i + bs) n) = [] :=
        List.drop_eq_nil_of_le (by omega)
      have h3 : cur.take i = cur := List.take_of_length_le (by omega)
      rw [h1, h2, h3, List.take_zero, List.append_nil, List.nil_append]
      have h4 := ih (i + bs) cur hlen
      have h5 : cur.drop (i + bs) = [] := List.drop_eq_nil_of_le (by omega)
      rw [h5] at h4
      rw [List.sublist_nil.mp h4]
      exact List.nil_sublist _
    · have hbe : i ≤ min (i + bs) n := by omega
      have hcur' : (cur.take i ++ cur.drop (min (i + bs) n)).length ≤ n := by
        rw [List.length_append, List.length_take, List.length_drop]
        omega
      have h4 := ih (i + bs) (cur.take i ++ cur.drop (min (i + bs) n)) hcur'
      have h5 : (cur.take i ++ cur.drop (min (i + bs) n)).drop (i + bs) =
          (cur.take i).drop (i + bs) ++
            (cur.drop (min (i + bs) n)).drop (i + bs - (cur.take i).length) :=
        List.drop_append_eq_append_drop
      have h6 : (cur.take i).drop (i + bs) = [] :=
        List.drop_eq_nil_of_le (by rw [List.length_take]; omega)
      rw [h5, h6, List.nil_append] at h4
      have h7 : List.Sublist
          (streamBatchesGo bs n m (i + bs)
            (cur.take i ++ cur.drop (min (i + bs) n))).flatten
          (cur.drop (min (i + bs) n)) :=
        h4.trans (List.drop_sublist _ _)
      have h8 : (cur.drop i).take (min (i + bs) n - i) ++ cur.drop (min (i + bs) n) =
          cur.drop i := by
        have h9 : (cur.drop i).drop (min (i + bs) n - i) =
            cur.drop (min (i + bs) n) := by
          rw [List.drop_drop]
          congr 1
          omega
        rw [← h9, List.take_append_drop]
      calc
        List.Sublist
          ((cur.drop i).take (min (i + bs) n - i) ++
            (streamBatchesGo bs n m (i + bs)
              (cur.take i ++ cur.drop (min (i + bs) n))).flatten)
          ((cur.drop i).take (min (i + bs) n - i) ++ cur.drop (min (i + bs) n)) :=
          h7.append_left _
        _ = cur.drop i := h8

/-- The batches dispatched by `_process_records_in_streaming_batches` are
an in-order sublist of the input records. -/
theorem process_records_flatten_sublist {α : Type} (records : List α) (bs : Nat) :
    List.Sublist (process_records_in_streaming_batches records bs).1.flatten
      records := by
  have h := streamBatchesGo_flatten_sublist bs records.length
    ((records.length + bs - 1) / bs) 0 records (le_refl _)
  simpa [process_records_in_streaming_batches] using h

/-- Across account chunks, delivered batches are an in-order sublist of the
chunk records in fetch order. -/
theorem fetch_with_account_chunks_flatten_sublist {α : Type}
    (t : DataRequest → TransportOutcome α) (period : Option String)
    (bs fuel : Nat) :
    ∀ chunks : List (List String),
      List.Sublist (fetch_with_account_chunks t period bs fuel chunks).1.flatten
        ((chunks.map (fun ids => (fetch_chunk_data t period ids fuel).1)).flatten) := by
  intro chunks
  induction chunks with
  | nil => exact List.nil_sublist _
  | cons c rest ih =>
    simp only [fetch_with_account_chunks, List.map_cons, List.flatten_cons,
      List.flatten_append]
    refine List.Sublist.append ?_ ih
    split
    · exact List.nil_sublist _
    · exact process_records_flatten_sublist _ _

/-- On the single-request path, delivered batches are an in-order sublist
of the returned results. -/
theorem fetch_single_request_flatten_sublist {α : Type}
    (t : DataRequest → TransportOutcome α) (period : Option String) (bs : Nat)
    (out : List (List α) × Nat × List DataRequest)
    (h : fetch_single_request t period bs = Except.ok out) :
    List.Sublist out.1.flatten
      ((make_api_request (t ⟨period, Option.none, Option.none⟩)).results.getD []) := by
  simp only [fetch_single_request] at h
  by_cases hc : ((make_api_request (t ⟨period, Option.none, Option.none⟩)).success = true ∧
      (make_api_request (t ⟨period, Option.none, Option.none⟩)).results.isSome = true)
  · rw [if_pos hc] at h
    injection h with h'
    rw [← h']
    exact process_records_flatten_sublist _ _
  · rw [if_neg hc] at h
    exact absurd h (by simp)

/-- One period's delivered batches are an in-order sublist of that period's
fetch-order records. -/
theorem fetch_single_period_flatten_sublist {α : Type} (api : NetSuiteApi α)
    (period : Option String) (cs bs fuel : Nat)
    (out : List (List α) × Nat × List DataRequest)
    (h : fetch_single_period_streaming api period cs bs fuel = Except.ok out) :
    List.Sublist out.1.flatten (period_fetch_order api period cs fuel) := by
  simp only [fetch_single_period_streaming] at h
  simp only [period_fetch_order]
  cases hga : get_accounts api with
  | none =>
    simp only [hga] at h ⊢
    exact fetch_single_request_flatten_sublist _ _ _ _ h
  | some accounts =>
    simp only [hga] at h ⊢
    by_cases hcs : cs < accounts.length
    · rw [if_pos hcs] at h
      rw [if_pos hcs]
      by_cases hch : (build_account_chunks accounts cs).isEmpty
      · rw [if_pos hch] at h
        rw [if_pos hch]
        exact fetch_single_request_flatten_sublist _ _ _ _ h
      · rw [if_neg hch] at h
        rw [if_neg hch]
        injection h with h'
        rw [← h']
        exact fetch_with_account_chunks_flatten_sublist _ _ _ _ _
    · rw [if_neg hcs] at h
      rw [if_neg hcs]
      exact fetch_single_request_flatten_sublist _ _ _ _ h

/-- Over the whole period loop, delivered batches are an in-order sublist
of the run's fetch-order records. -/
theorem fetchPeriodsGo_flatten_sublist {α : Type} (api : NetSuiteApi α)
    (cs bs fuel : Nat) :
    ∀ (ps : List (Option String)) (out : List (List α) × Nat × List DataRequest),
      fetchPeriodsGo api cs bs fuel ps = Except.ok out →
      List.Sublist out.1.flatten
        ((ps.map (fun p => period_fetch_order api p cs fuel)).flatten) := by
  intro ps
  induction ps with
  | nil =>
    intro out h
    injection h with h'
    rw [← h']
    exact List.nil_sublist _
  | cons p rest ih =>
    intro out h
    simp only [fetchPeriodsGo] at h
    cases h1 : fetch_single_period_streaming api p cs bs fuel with
    | error e => rw [h1] at h; exact absurd h (by simp)
    | ok o1 =>
      rw [h1] at h
      cases h2 : fetchPeriodsGo api cs bs fuel rest with
      | error e => rw [h2] at h; exact absurd h (by simp)
      | ok o2 =>
        rw [h2] at h
        injection h with h'
        rw [← h']
        simp only [List.map_cons, List.flatten_cons, List.flatten_append]
        exact List.Sublist.append
          (fetch_single_period_flatten_sublist api p cs bs fuel o1 h1)
          (ih o2 h2)

/-- C2 counterexample: the account-chunked run passes records through in
API order with no internal-id reordering, so when chunk 1 returns id 5 and
chunk 2 returns id 3 the consumer receives 5 then 3 — a decrease. -/
theorem claim_C2_counterexample :
    ¬ claimC2Statement ∧
    fetch_gl_data_streaming apiC2 [] 1 10 1 =
      Except.ok ([[5], [3]], 2,
        [⟨Option.none, Option.some ["1"], Option.some 0⟩,
         ⟨Option.none, Option.some ["2"], Option.some 0⟩]) := by
  refine ⟨?_, rfl⟩
  intro h
  have := h apiC2 [] 1 10 1 ([[5], [3]], 2,
    [⟨Option.none, Option.some ["1"], Option.some 0⟩,
     ⟨Option.none, Option.some ["2"], Option.some 0⟩]) rfl
  exact absurd this (by decide)

/-- C2 as amended: a successful run delivers an in-order sublist of the
records as the API returned them (chunk by chunk, page by page, period by
period) — no reordering is performed — so whenever the API-order sequence
is non-decreasing in some ordering field, the delivered sequence is too.
(Only this direction holds: dropped records can leave a sorted delivery
even when the full API-order sequence was unsorted.) -/
theorem claim_C2_amended {α : Type} (api : NetSuiteApi α) (pids : List String)
    (cs bs fuel : Nat) (out : List (List α) × Nat × List DataRequest)
    (R : α → α → Prop)
    (hok : fetch_gl_data_streaming api pids cs bs fuel = Except.ok out)
    (hord : List.Pairwise R (run_fetch_order api pids cs fuel)) :
    List.Sublist out.1.flatten (run_fetch_order api pids cs fuel) ∧
    List.Pairwise R out.1.flatten := by
  have hs := fetchPeriodsGo_flatten_sublist api cs bs fuel
    (if pids.isEmpty then [Option.none] else pids.map Option.some) out hok
  exact ⟨hs, hord.sublist hs⟩

/-- C2 witness: with the well-ordered transport the delivered sequence
`[1, 2]` is a sublist of the fetch order and non-decreasing. -/
theorem claim_C2_amended_witness :
    List.Sublist ([[1], [2]] : List (List Nat)).flatten
      (run_fetch_order apiC2W [] 1 1) ∧
    List.Pairwise (· ≤ ·) ([[1], [2]] : List (List Nat)).flatten :=
  claim_C2_amended apiC2W [] 1 10 1 ([[1], [2]], 2,
    [⟨Option.none, Option.some ["1"], Option.some 0⟩,
     ⟨Option.none, Option.some ["2"], Option.some 0⟩]) (· ≤ ·) rfl (by decide)

/-! ## C3 — ceiling re-anchoring (spec-modelled controller) -/

/-- In a strictly id-sorted list, filtering for ids above the `k`-th
element's id keeps exactly the elements after position `k`. -/
theorem filter_gt_drop {α : Type} (idOf : α → Nat) :
    ∀ (D : List α) (m : Nat), List.Pairwise (fun a b => idOf a < idOf b) D →
      ∀ (k : Nat) (hk : k < D.length), m = idOf (D.get ⟨k, hk⟩) →
        D.filter (fun r => m < idOf r) = D.drop (k + 1) := by
  intro D
  induction D with
  | nil => intro m _ k hk; exact absurd hk (by simp)
  | cons d tl ih =>
    intro m hp k hk hm
    obtain ⟨hd, htl⟩ := List.pairwise_cons.mp hp
    cases k with
    | zero =>
      have hm0 : m = idOf d := hm
      subst hm0
      simp only [List.filter_cons]
      rw [if_neg (by simp)]
      have hall : tl.filter (fun r => decide (idOf d < idOf r)) = tl :=
        List.filter_eq_self.mpr (fun a ha => by simp [hd a ha])
      rw [hall]
      rfl
    | succ k' =>
      have hk' : k' < tl.length := by simpa using hk
      have hm' : m = idOf (tl.get ⟨k', hk'⟩) := hm
      simp only [List.filter_cons]
      rw [if_neg ?_]
      · rw [ih m htl k' hk' hm']
        rfl
      · have hdm : idOf d < m := by
          rw [hm']
          exact hd _ (tl.get_mem _ _)
        simp only [decide_eq_true_eq]
        omega

/-- The controller's run from any anchor whose query result is the suffix
`D.drop j`: it yields exactly that suffix, uses at least one chunk, and at
least two whenever the suffix overflows one chunk's capacity. -/
theorem controller_yields_all {α : Type} (D : List α) (idOf : α → Nat)
    (ps ceiling : Nat) (hps : 0 < ps)
    (hsort : List.Pairwise (fun a b => idOf a < idOf b) D)
    (hpos : ∀ r ∈ D, 0 < idOf r) :
    ∀ (fuel minId j : Nat), query_rows D idOf minId = D.drop j → j ≤ D.length →
      D.length - j < fuel →
      (run_pagination_controller D idOf ps ceiling fuel minId).1 = D.drop j ∧
      1 ≤ (run_pagination_controller D idOf ps ceiling fuel minId).2 ∧
      ((ceiling / ps + 1) * ps ≤ D.length - j →
        2 ≤ (run_pagination_controller D idOf ps ceiling fuel minId).2) := by
  intro fuel
  induction fuel with
  | zero => intro minId j _ _ hf; omega
  | succ fuel ih =>
    intro minId j hq hj hf
    have hcap : 0 < (ceiling / ps + 1) * ps := Nat.mul_pos (Nat.succ_pos _) hps
    simp only [run_pagination_controller, hq]
    by_cases hlt : (D.drop j).length < (ceiling / ps + 1) * ps
    · rw [if_pos hlt]
      refine ⟨List.take_of_length_le (le_of_lt hlt), le_refl 1, ?_⟩
      intro hge
      rw [List.length_drop] at hlt
      omega
    · rw [if_neg hlt]
      push_neg at hlt
      rw [List.length_drop] at hlt
      have hlen_take : ((D.drop j).take ((ceiling / ps + 1) * ps)).length =
          (ceiling / ps + 1) * ps := by
        rw [List.length_take, List.length_drop]
        omega
      have hklt : j + (ceiling / ps + 1) * ps - 1 < D.length := by omega
      have hgl : ((D.drop j).take ((ceiling / ps + 1) * ps)).getLast? =
          Option.some (D.get ⟨j + (ceiling / ps + 1) * ps - 1, hklt⟩) := by
        rw [List.getLast?_eq_getElem?, hlen_take,
          List.getElem?_take_of_lt (by omega : (ceiling / ps + 1) * ps - 1 <
            (ceiling / ps + 1) * ps),
          List.getElem?_drop]
        have harg : j + ((ceiling / ps + 1) * ps - 1) =
            j + (ceiling / ps + 1) * ps - 1 := by omega
        rw [harg, List.getElem?_eq_getElem hklt]
        rfl
      rw [hgl]
      have hquery2 : query_rows D idOf
          (idOf (D.get ⟨j + (ceiling / ps + 1) * ps - 1, hklt⟩)) =
          D.drop (j + (ceiling / ps + 1) * ps) := by
        unfold query_rows
        rw [if_neg ?_]
        · rw [filter_gt_drop idOf D _ hsort _ hklt rfl]
          congr 1
          omega
        · have := hpos (D.get ⟨j + (ceiling / ps + 1) * ps - 1, hklt⟩)
            (D.get_mem _ hklt)
          omega
      have ihres := ih _ (j + (ceiling / ps + 1) * ps) hquery2 (by omega) (by omega)
      refine ⟨?_, ?_, ?_⟩
      · show (D.drop j).take ((ceiling / ps + 1) * ps) ++ _ = D.drop j
        rw [ihres.1]
        have hdd : (D.drop j).drop ((ceiling / ps + 1) * ps) =
            D.drop (j + (ceiling / ps + 1) * ps) := by
          rw [List.drop_drop]
        rw [← hdd, List.take_append_drop]
      · show 1 ≤ (run_pagination_controller D idOf ps ceiling fuel _).2 + 1
        omega
      · intro _
        have := ihres.2.1
        show 2 ≤ (run_pagination_controller D idOf ps ceiling fuel _).2 + 1
        omega

/-- C3 (controller modelled from the spec): over any strictly id-sorted
dataset with positive ids, the identifier-chunked controller yields every
row exactly once — a chunk ending only because the ceiling was reached with
full pages re-anchors at the last yielded id — and a dataset larger than
one chunk's capacity `(ceiling / ps + 1) * ps` (100,000 rows for
`ps = 1000`, `ceiling = 99000`, so 150,000 matching rows qualify) is split
into at least two chunks with no truncation. -/
theorem claim_C3_ceiling_reanchoring {α : Type} (D : List α) (idOf : α → Nat)
    (ps ceiling fuel : Nat) (hps : 0 < ps)
    (hsort : List.Pairwise (fun a b => idOf a < idOf b) D)
    (hpos : ∀ r ∈ D, 0 < idOf r) (hfuel : D.length < fuel) :
    (run_pagination_controller D idOf ps ceiling fuel 0).1 = D ∧
    ((ceiling / ps + 1) * ps ≤ D.length →
      2 ≤ (run_pagination_controller D idOf ps ceiling fuel 0).2) := by
  have hq : query_rows D idOf 0 = D.drop 0 := by
    unfold query_rows
    simp
  have h := controller_yields_all D idOf ps ceiling hps hsort hpos fuel 0 0 hq
    (by omega) (by omega)
  exact ⟨by simpa using h.1, fun hc => h.2.2 (by simpa using hc)⟩

/-- C3 witness: five rows, page size 1, ceiling 1 (chunk capacity 2): all
five rows come back in order across at least two chunks. -/
theorem claim_C3_witness :
    (run_pagination_controller [1, 2, 3, 4, 5] (fun x => x) 1 1 6 0).1 =
      [1, 2, 3, 4, 5] ∧
    2 ≤ (run_pagination_controller [1, 2, 3, 4, 5] (fun x => x) 1 1 6 0).2 :=
  ⟨(claim_C3_ceiling_reanchoring [1, 2, 3, 4, 5] (fun x => x) 1 1 6 (by decide)
      (by decide) (by decide) (by decide)).1,
   (claim_C3_ceiling_reanchoring [1, 2, 3, 4, 5] (fun x => x) 1 1 6 (by decide)
      (by decide) (by decide) (by decide)).2 (by decide)⟩

/-! ## C8 — the OAuth signing key -/

set_option maxRecDepth 1000000
set_option maxHeartbeats 4000000

/-- The signature the code emits for the space-carrying credentials
(signing key `"p q&ts"`, unencoded). -/
theorem oauth_signature_code_value :
    oauth_signature credsC8 "n" "1" =
      "z04fX+3Oeom27uloqR+4cRPD9XWzhycDR8awQXGy+HQ=" := by rfl

/-- The signature the spec's formula demands for the same credentials
(signing key `"p%20q&ts"`, percent-encoded). -/
theorem oauth_signature_spec_value :
    spec_oauth_signature credsC8 "n" "1" =
      "yY3bfyhBZYPDqeSxhlctuH8jJGZ094VvbRAn0L+qruM=" := by rfl

/-- C8 counterexample: `generate_oauth_header` signs with the raw
`consumer_secret&token_secret`, so for secrets that percent-encoding
changes (here `"p q"`) the emitted signature differs from the claimed
`encoded(consumer_secret)&encoded(token_secret)` formula. -/
theorem claim_C8_counterexample :
    ¬ claimC8Statement ∧
    oauth_signature credsC8 "n" "1" ≠ spec_oauth_signature credsC8 "n" "1" := by
  have hne : oauth_signature credsC8 "n" "1" ≠
      spec_oauth_signature credsC8 "n" "1" := by
    rw [oauth_signature_code_value, oauth_signature_spec_value]
    decide
  exact ⟨fun h => hne (h credsC8 "n" "1"), hne⟩

/-- C8 as amended: the emitted `oauth_signature` is the base64 HMAC-SHA256
of the canonical base string under the *unencoded* key
`consumer_secret&token_secret`; the claimed percent-encoded-key formula
holds exactly when both secrets are fixed points of percent-encoding. -/
theorem claim_C8_amended (c : OAuthCreds) (nonce timestamp : String) :
    oauth_signature c nonce timestamp =
      base64Encode (hmacSha256
        (strBytes (c.consumer_secret ++ "&" ++ c.token_secret))
        (strBytes (signature_base_string c nonce timestamp))) ∧
    (percentEncode c.consumer_secret = c.consumer_secret →
      percentEncode c.token_secret = c.token_secret →
      oauth_signature c nonce timestamp = spec_oauth_signature c nonce timestamp) := by
  refine ⟨rfl, ?_⟩
  intro h1 h2
  unfold oauth_signature spec_oauth_signature oauth_signing_key
  rw [h1, h2]

/-- C8 witness: for secrets made of unreserved characters the emitted and
claimed signatures agree. -/
theorem claim_C8_witness :
    oauth_signature credsC8W "n" "1" = spec_oauth_signature credsC8W "n" "1" :=
  (claim_C8_amended credsC8W "n" "1").2 (by decide) (by decide)

end NetSuiteTap
